import Mathlib

/-!
Verification development for the Enphase Envoy gateway client core
(`custom_components/enphase_envoy/envoy_reader.py`).

The Python module is shallowly embedded: the mutable `EnvoyReader` object
becomes an explicit state record, network interactions are abstracted by an
environment that assigns each HTTP interaction its outcome, decoded JSON
bodies become an inductive `Json` type, and Python's dynamic failures
(KeyError, IndexError, TypeError, AttributeError, UnboundLocalError,
raised httpx errors, ...) become an explicit error type `PErr` threaded
through `Except` or an `err?` field.  Responses carry their decoded JSON
body (`.json()` is modelled as reading that body).
-/

/-- Python-level error outcomes of the embedded code.  `transportError`
models a raised `httpx.TransportError`, `httpStatusError` the exception of
`Response.raise_for_status()`, `runtimeSecureComm` and
`runtimeCouldNotDetermine` the two `RuntimeError`s of `detect_model`,
`jwtDecodeError` a failure of `jwt.decode`, the rest are the usual Python
exception kinds. -/
inductive PErr where
  | transportError
  | attributeError
  | keyError
  | indexError
  | typeError
  | valueError
  | unboundLocalError
  | httpStatusError
  | runtimeSecureComm
  | runtimeCouldNotDetermine
  | jwtDecodeError
deriving DecidableEq, Repr

/-- Decoded JSON values (numbers restricted to integers, which covers every
value the verified claims exercise). -/
inductive Json where
  | null
  | bool (b : Bool)
  | num (n : Int)
  | str (s : String)
  | arr (xs : List Json)
  | obj (kvs : List (String × Json))

/-- An HTTP response as the Python code observes it: status code plus the
decoded JSON body (`resp.json()` reads `body`). -/
structure Response where
  status_code : Nat
  body : Json

/-- Result of one call to `_async_fetch_with_retry`: either the raised
`httpx.TransportError` of the third failed attempt, or the returned value —
`none` models the `return None` taken on HTTP 404, `some r` the returned
response. -/
inductive FetchResult where
  | raisedTransport
  | value (r : Option Response)

/-- Python `d[k]` on a decoded JSON value: dict lookup raises `KeyError`
when the key is missing; subscripting a list or a string with a string, or
subscripting a scalar, raises `TypeError`. -/
def jget : Json → String → Except PErr Json
  | .obj kvs, k =>
    match kvs.find? (fun kv => kv.1 == k) with
    | some kv => .ok kv.2
    | none => .error .keyError
  | .arr _, _ => .error .typeError
  | .str _, _ => .error .typeError
  | _, _ => .error .typeError

/-- Python `x[i]` with an integer index: list indexing raises `IndexError`
out of bounds, dict indexing with an absent (integer) key raises `KeyError`,
string indexing yields a one-character string, scalars raise `TypeError`. -/
def jidx : Json → Nat → Except PErr Json
  | .arr xs, i =>
    match xs[i]? with
    | some v => .ok v
    | none => .error .indexError
  | .obj _, _ => .error .keyError
  | .str s, i =>
    match s.toList[i]? with
    | some c => .ok (.str (String.mk [c]))
    | none => .error .indexError
  | _, _ => .error .typeError

/-- Python `int(x)` on a decoded JSON value. -/
def pyInt : Json → Except PErr Int
  | .num n => .ok n
  | .bool b => .ok (if b then 1 else 0)
  | .str s =>
    match s.toInt? with
    | some n => .ok n
    | none => .error .valueError
  | _ => .error .typeError

/-- Python `x > 0` on a decoded JSON value (numbers and booleans compare,
anything else raises `TypeError`). -/
def pyGtZero : Json → Except PErr Bool
  | .num n => .ok (decide (0 < n))
  | .bool b => .ok b
  | _ => .error .typeError

/-- Contiguous-sublist test on character lists (helper for `strIn`). -/
def strInAux (sub : List Char) : List Char → Bool
  | [] => sub.isEmpty
  | c :: rest => sub.isPrefixOf (c :: rest) || strInAux sub rest

/-- Python `sub in s` for two strings: substring test. -/
def strIn (sub s : String) : Bool :=
  strInAux sub.toList s.toList

/-- Python `x in s` where `s` is a string and `x` is `self.endpoint_type`
(either `None` or a string): `None in s` raises `TypeError`, a string is a
substring test. -/
def pyInStrOpt (x : Option String) (s : String) : Except PErr Bool :=
  match x with
  | none => .error .typeError
  | some t => .ok (strIn t s)

/-- Python `k in j` for a string `k` against a decoded JSON value:
key test on dicts, membership on lists (a string only equals a string
element), substring test on strings, `TypeError` on scalars. -/
def pyInJson (k : String) (j : Json) : Except PErr Bool :=
  match j with
  | .obj kvs => .ok (kvs.any (fun kv => kv.1 == k))
  | .arr xs =>
    .ok (xs.any (fun x => match x with | .str s => s == k | _ => false))
  | .str s => .ok (strIn k s)
  | _ => .error .typeError

/-- `ENVOY_MODEL_S = "PC"` — production and consumption. -/
def ENVOY_MODEL_S : String := "PC"

/-- `ENVOY_MODEL_C = "P"` — production only. -/
def ENVOY_MODEL_C : String := "P"

/-- `EnvoyReader.message_consumption_not_available`. -/
def message_consumption_not_available : String :=
  "Consumption data not available for your Envoy device."

/-- `has_production_and_consumption(json)`:
`"production" in json and "consumption" in json`. -/
def has_production_and_consumption (j : Json) : Except PErr Bool := do
  let a ← pyInJson "production" j
  if a then pyInJson "consumption" j else pure false

/-- `has_metering_setup(json)`: `json["production"][1]["activeCount"] > 0`
(each subscript error propagates). -/
def has_metering_setup (j : Json) : Except PErr Bool :=
  match jget j "production" with
  | .error e => .error e
  | .ok p =>
    match jidx p 1 with
    | .error e => .error e
    | .ok entry =>
      match jget entry "activeCount" with
      | .error e => .error e
      | .ok a => pyGtZero a

example : has_production_and_consumption
    (.obj [("production", .null), ("consumption", .null)]) = .ok true := by
  rfl

example : has_metering_setup
    (.obj [("production", .arr [.null, .obj [("activeCount", .num 2)]])]) =
    .ok true := by
  rfl

/-- Outcome of one `client.get` attempt inside `_async_fetch_with_retry`:
either a raised `httpx.TransportError` or a returned response. -/
inductive AttemptOut where
  | transportError
  | response (r : Response)

/-- Environment of a single `_async_fetch_with_retry` call: `net i` is what
the i-th GET attempt would yield, `cookieOk i` is whether the
`_refresh_token_cookies()` call made while handling a 401 on attempt `i`
would return `True`.  (The bodies of `_refresh_token_cookies` and
`_getEnphaseToken` are abstracted into these environment outcomes; the
claim under verification concerns only the retry schedule around them.) -/
structure FEnv where
  net : Nat → AttemptOut
  cookieOk : Nat → Bool

/-- Observable events of a `_async_fetch_with_retry` run: GET attempt `i`,
a `_refresh_token_cookies()` call (with its result), a `_getEnphaseToken()`
full re-authentication. -/
inductive FEvent where
  | get (i : Nat)
  | cookieRefresh (ok : Bool)
  | fullReauth
deriving DecidableEq, Repr

/-- One iteration of the `for attempt in range(3)` loop of
`_async_fetch_with_retry`: `none` in the first component means the loop
continues with the next attempt, `some res` that the function returns or
raises; the second component lists the events of this iteration. -/
def fetchStep (env : FEnv) (attempt : Nat) : Option FetchResult × List FEvent :=
  match env.net attempt with
  | .transportError =>
    (if attempt == 2 then some .raisedTransport else none, [.get attempt])
  | .response r =>
    if r.status_code == 401 && decide (attempt < 2) then
      (none,
        [.get attempt, .cookieRefresh (env.cookieOk attempt)] ++
          (if env.cookieOk attempt then [] else [.fullReauth]))
    else if r.status_code == 404 then (some (.value none), [.get attempt])
    else (some (.value (some r)), [.get attempt])

/-- `_async_fetch_with_retry(url)`: the three-iteration loop, returning the
result together with the full event trace.  (Falling off the loop would
return Python's implicit `None`; attempt 2 always returns or raises, so the
final fallback is unreachable.) -/
def _async_fetch_with_retry (env : FEnv) : FetchResult × List FEvent :=
  match fetchStep env 0 with
  | (some res, ev0) => (res, ev0)
  | (none, ev0) =>
    match fetchStep env 1 with
    | (some res, ev1) => (res, ev0 ++ ev1)
    | (none, ev1) =>
      match fetchStep env 2 with
      | (some res, ev2) => (res, ev0 ++ ev1 ++ ev2)
      | (none, ev2) => (.value none, ev0 ++ ev1 ++ ev2)

/-- Is an event a GET attempt? -/
def FEvent.isGet : FEvent → Bool
  | .get _ => true
  | _ => false

/-- The logical endpoints fetched by the orchestrator (the keys of the raw
endpoint cache; each corresponds to one `ENDPOINT_URL_*`). -/
inductive Ep where
  | production_json
  | ensemble_inventory
  | home_json
  | production_v1
  | devstatus
  | production_power
  | inverters
deriving DecidableEq, Repr

/-- Constructor-time configuration of `EnvoyReader` that the code never
reassigns: `inverters` (stored as `self.get_inverters`) and
`token_refresh_buffer_seconds`. -/
structure EnvoyConfig where
  get_inverters : Bool
  token_refresh_buffer_seconds : Int

/-- Mutable session state of an `EnvoyReader` instance: capability class
`endpoint_type` (`None` / `"PC"` / `"P"`), the two flags, the cached bearer
token `_token`, and the raw endpoint cache (the
`self.endpoint_*_results` attributes, keyed here by `Ep`; `none` is an
attribute holding `None`). -/
structure EnvoyState where
  endpoint_type : Option String
  isMeteringEnabled : Bool
  installer_access : Bool
  _token : String
  cache : Ep → Option Response

/-- `self.endpoint_production_json_results`. -/
def EnvoyState.endpoint_production_json_results (st : EnvoyState) : Option Response :=
  st.cache .production_json

/-- `self.endpoint_production_v1_results`. -/
def EnvoyState.endpoint_production_v1_results (st : EnvoyState) : Option Response :=
  st.cache .production_v1

/-- `self.endpoint_ensemble_json_results`. -/
def EnvoyState.endpoint_ensemble_json_results (st : EnvoyState) : Option Response :=
  st.cache .ensemble_inventory

/-- `self.endpoint_home_json_results`. -/
def EnvoyState.endpoint_home_json_results (st : EnvoyState) : Option Response :=
  st.cache .home_json

/-- `self.endpoint_devstatus`. -/
def EnvoyState.endpoint_devstatus (st : EnvoyState) : Option Response :=
  st.cache .devstatus

/-- `self.endpoint_production_power`. -/
def EnvoyState.endpoint_production_power (st : EnvoyState) : Option Response :=
  st.cache .production_power

/-- `self.endpoint_production_inverters`. -/
def EnvoyState.endpoint_production_inverters (st : EnvoyState) : Option Response :=
  st.cache .inverters

/-- `setattr(self, attr, response)` for an endpoint-cache attribute. -/
def setEp (st : EnvoyState) (ep : Ep) (r : Option Response) : EnvoyState :=
  { st with cache := fun e => if e = ep then r else st.cache e }

/-- The fresh state built by `EnvoyReader.__init__`. -/
def initState : EnvoyState :=
  { endpoint_type := none
    isMeteringEnabled := false
    installer_access := false
    _token := ""
    cache := fun _ => none }

/-- Environment of one poll cycle: `fetch ep` is the result of the
`_async_fetch_with_retry` call for endpoint `ep`, `now` the current time
and `decodeExp tok` the `exp` claim `jwt.decode` extracts from `tok`
(`none` = the decode raises), `ownerToken` the outcome of the Enlighten
owner-token acquisition of `_getEnphaseToken`, and `refreshCookies` the
outcome of the `_refresh_token_cookies` call it then makes. -/
structure Env where
  fetch : Ep → FetchResult
  now : Int
  decodeExp : String → Option Int
  ownerToken : Except PErr String
  refreshCookies : Except PErr Bool

/-- Result of a (possibly raising) state-mutating operation: the state as
left behind (Python mutates `self` in place, so fields assigned before an
exception keep their new values), the raised error if any, and the ordered
list of endpoints whose fetch was attempted. -/
structure UpRes where
  state : EnvoyState
  err? : Option PErr
  attempted : List Ep

/-- Sequencing of mutating operations: if the first raised, the rest of the
method body is not executed. -/
def UpRes.andThen (r : UpRes) (f : EnvoyState → UpRes) : UpRes :=
  match r.err? with
  | some _ => r
  | none =>
    let r2 := f r.state
    ⟨r2.state, r2.err?, r.attempted ++ r2.attempted⟩

/-- `try: ... except httpx.HTTPError: pass` around a mutating operation —
a raised `httpx.TransportError` is swallowed (state changes kept), any
other error (e.g. `AttributeError`) still propagates. -/
def swallowTransport (r : UpRes) : UpRes :=
  match r.err? with
  | some .transportError => ⟨r.state, none, r.attempted⟩
  | _ => r

/-- `_update_endpoint(attr, url, only_on_success)`: fetch the endpoint with
retry; on 404 the fetch returned `None`.  `if not only_on_success or
response.status_code == 200: setattr(self, attr, response)` — with
`only_on_success` set, `response.status_code` is evaluated, which raises
`AttributeError` when the fetch returned `None`. -/
def _update_endpoint (env : Env) (st : EnvoyState) (ep : Ep)
    (only_on_success : Bool) : UpRes :=
  match env.fetch ep with
  | .raisedTransport => ⟨st, some .transportError, [ep]⟩
  | .value r =>
    if only_on_success then
      match r with
      | none => ⟨st, some .attributeError, [ep]⟩
      | some resp =>
        if resp.status_code == 200 then ⟨setEp st ep (some resp), none, [ep]⟩
        else ⟨st, none, [ep]⟩
    else ⟨setEp st ep r, none, [ep]⟩

/-- `_update_from_pc_endpoint()`: production.json, then ensemble inventory,
then home.json, sequentially, no per-endpoint exception isolation. -/
def _update_from_pc_endpoint (env : Env) (st : EnvoyState) : UpRes :=
  (_update_endpoint env st .production_json false).andThen (fun s1 =>
    (_update_endpoint env s1 .ensemble_inventory false).andThen (fun s2 =>
      _update_endpoint env s2 .home_json false))

/-- `_update_from_p_endpoint()`: the api/v1/production endpoint. -/
def _update_from_p_endpoint (env : Env) (st : EnvoyState) : UpRes :=
  _update_endpoint env st .production_v1 false

/-- `_update_from_installer_endpoint()`: devstatus then production-power
mode, both with `only_on_success=True`. -/
def _update_from_installer_endpoint (env : Env) (st : EnvoyState) : UpRes :=
  (_update_endpoint env st .devstatus true).andThen (fun s1 =>
    _update_endpoint env s1 .production_power true)

/-- `_update()`: the per-cycle orchestrator.  Three sequential `if`
blocks, with no `try`/`except` around any of them. -/
def _update (env : Env) (st : EnvoyState) : UpRes :=
  (if st.endpoint_type = some ENVOY_MODEL_S then
      _update_from_pc_endpoint env st
    else ⟨st, none, []⟩).andThen (fun s1 =>
    (if s1.endpoint_type = some ENVOY_MODEL_C ∨
        (s1.endpoint_type = some ENVOY_MODEL_S ∧ s1.isMeteringEnabled = false) then
        _update_from_p_endpoint env s1
      else ⟨s1, none, []⟩).andThen (fun s2 =>
      if s2.installer_access then _update_from_installer_endpoint env s2
      else ⟨s2, none, []⟩))

/-- The `if self.endpoint_production_json_results and
self.endpoint_production_json_results.status_code == 401` test of
`detect_model`. -/
def pjIs401 (st : EnvoyState) : Bool :=
  match st.endpoint_production_json_results with
  | some r => r.status_code == 401
  | none => false

/-- `detect_model` lines 413-425: if the combined probe returned 200 and
its body has both sections, set `isMeteringEnabled` from
`has_metering_setup`, probe the production-only endpoint when metering is
not enabled (no `try` around it), then set `endpoint_type = ENVOY_MODEL_S`. -/
def detect_pc_branch (env : Env) (st : EnvoyState) : UpRes :=
  match st.endpoint_production_json_results with
  | some r =>
    if r.status_code == 200 then
      match has_production_and_consumption r.body with
      | .error e => ⟨st, some e, []⟩
      | .ok false => ⟨st, none, []⟩
      | .ok true =>
        match has_metering_setup r.body with
        | .error e => ⟨st, some e, []⟩
        | .ok m =>
          let st1 := { st with isMeteringEnabled := m }
          (if m then ⟨st1, none, []⟩ else _update_from_p_endpoint env st1).andThen
            (fun s2 => ⟨{ s2 with endpoint_type := some ENVOY_MODEL_S }, none, []⟩)
    else ⟨st, none, []⟩
  | none => ⟨st, none, []⟩

/-- `detect_model` lines 427-436: if no class was set, probe the
production-only endpoint (`try`/`except httpx.HTTPError: pass`) and set
`endpoint_type = ENVOY_MODEL_C` if it answered 200. -/
def detect_p_branch (env : Env) (st : EnvoyState) : UpRes :=
  if st.endpoint_type = none then
    (swallowTransport (_update_from_p_endpoint env st)).andThen (fun s1 =>
      match s1.endpoint_production_v1_results with
      | some r =>
        if r.status_code == 200 then
          ⟨{ s1 with endpoint_type := some ENVOY_MODEL_C }, none, []⟩
        else ⟨s1, none, []⟩
      | none => ⟨s1, none, []⟩)
  else ⟨st, none, []⟩

/-- `detect_model` lines 446-451: opportunistically probe the installer
endpoints (`try`/`except httpx.HTTPError: pass`), then set
`installer_access` if a production-power response was cached. -/
def detect_installer_stage (env : Env) (st : EnvoyState) : UpRes :=
  (swallowTransport (_update_from_installer_endpoint env st)).andThen (fun s1 =>
    if s1.endpoint_production_power.isSome then
      ⟨{ s1 with installer_access := true }, none, []⟩
    else ⟨s1, none, []⟩)

/-- Everything `detect_model()` does after the initial combined-endpoint
probe: raise the "secure communication required" `RuntimeError` on a cached
401, classify as `ENVOY_MODEL_S` or `ENVOY_MODEL_C`, raise the "could not
determine model" `RuntimeError` when no class was set, then probe the
installer endpoints. -/
def detect_tail (env : Env) (s1 : EnvoyState) : UpRes :=
  if pjIs401 s1 then ⟨s1, some .runtimeSecureComm, []⟩
  else
    (detect_pc_branch env s1).andThen (fun s2 =>
      (detect_p_branch env s2).andThen (fun s3 =>
        if s3.endpoint_type = none then
          ⟨s3, some .runtimeCouldNotDetermine, []⟩
        else detect_installer_stage env s3))

/-- `detect_model()`: probe the combined endpoint
(`try`/`except httpx.HTTPError: pass`), then run `detect_tail`. -/
def detect_model (env : Env) (st : EnvoyState) : UpRes :=
  (swallowTransport (_update_from_pc_endpoint env st)).andThen (detect_tail env)

/-- `_is_enphase_token_expired(token)`: decode the `exp` claim, subtract
the refresh buffer, compare with the current time; the token counts as
expired unless `now < exp - buffer` (times at epoch-second granularity). -/
def _is_enphase_token_expired (cfg : EnvoyConfig) (env : Env) (token : String) :
    Except PErr Bool :=
  match env.decodeExp token with
  | none => .error .jwtDecodeError
  | some exp =>
    .ok (decide (exp - cfg.token_refresh_buffer_seconds ≤ env.now))

/-- `_getEnphaseToken()`: obtain the Enlighten owner token (network
interaction abstracted into `env.ownerToken`), store it in `self._token`,
then run `_refresh_token_cookies()` (abstracted into `env.refreshCookies`;
its boolean result is discarded, its exceptions propagate). -/
def _getEnphaseToken (env : Env) (st : EnvoyState) : Except PErr EnvoyState :=
  match env.ownerToken with
  | .error e => .error e
  | .ok t =>
    match env.refreshCookies with
    | .error e => .error e
    | .ok _ => .ok { st with _token := t }

/-- Result of `getData`: final state, raised error if any, whether the
token stage performed a full re-authentication (`_getEnphaseToken`), and
the endpoints whose fetch was attempted. -/
structure GRes where
  state : EnvoyState
  err? : Option PErr
  reauthed : Bool
  attempted : List Ep

/-- `getData(getInverters)`: ensure a token (full re-authentication when
the cached token is empty or expired), then `detect_model` on the first
cycle or `_update` on later cycles, then — when inverter data is wanted —
fetch the per-inverter endpoint, raising on a 401 response
(`response.raise_for_status()`); a `None` fetch result (404) hits
`response.text` in the debug log and raises `AttributeError`. -/
def getData (cfg : EnvoyConfig) (env : Env) (st : EnvoyState)
    (getInverters : Bool) : GRes :=
  let tokenRes : Except PErr EnvoyState × Bool :=
    if st._token = "" then (_getEnphaseToken env st, true)
    else
      match _is_enphase_token_expired cfg env st._token with
      | .error e => (.error e, false)
      | .ok b => if b then (_getEnphaseToken env st, true) else (.ok st, false)
  match tokenRes with
  | (.error e, rb) => ⟨st, some e, rb, []⟩
  | (.ok st1, rb) =>
    let ur : UpRes :=
      match st1.endpoint_type with
      | none => detect_model env st1
      | some _ => _update env st1
    match ur.err? with
    | some e => ⟨ur.state, some e, rb, ur.attempted⟩
    | none =>
      let st2 := ur.state
      if cfg.get_inverters = false ∨ getInverters = false then
        ⟨st2, none, rb, ur.attempted⟩
      else
        match env.fetch .inverters with
        | .raisedTransport =>
          ⟨st2, some .transportError, rb, ur.attempted ++ [.inverters]⟩
        | .value none =>
          ⟨st2, some .attributeError, rb, ur.attempted ++ [.inverters]⟩
        | .value (some r) =>
          if r.status_code == 401 then
            ⟨st2, some .httpStatusError, rb, ur.attempted ++ [.inverters]⟩
          else
            ⟨setEp st2 .inverters (some r), none, rb,
              ur.attempted ++ [.inverters]⟩

/-- Values a metric extractor can return: an int, a sentinel message
string, or Python `None`. -/
inductive PyVal where
  | int (n : Int)
  | str (s : String)
  | none
deriving DecidableEq, Repr

/-- `.json()` on a cached endpoint attribute: `None.json()` raises
`AttributeError`, otherwise the decoded body is read. -/
def cachedJson (r : Option Response) : Except PErr Json :=
  match r with
  | Option.none => .error .attributeError
  | Option.some resp => .ok resp.body

/-- `production()`: class dispatch via `==` comparisons; when neither
branch assigns, `int(production)` raises `UnboundLocalError`. -/
def production (st : EnvoyState) : Except PErr PyVal := do
  if st.endpoint_type = some ENVOY_MODEL_S then
    let raw_json ← cachedJson st.endpoint_production_json_results
    let idx := if st.isMeteringEnabled then 1 else 0
    let p ← jget raw_json "production"
    let e ← jidx p idx
    let w ← jget e "wNow"
    let n ← pyInt w
    pure (.int n)
  else if st.endpoint_type = some ENVOY_MODEL_C then
    let raw_json ← cachedJson st.endpoint_production_v1_results
    let w ← jget raw_json "wattsNow"
    let n ← pyInt w
    pure (.int n)
  else .error .unboundLocalError

/-- The `try: ... except (KeyError, IndexError): return None` wrapper of
the per-phase extractors: those two error kinds become `None`, every other
error still propagates. -/
def phaseTry (x : Except PErr Int) : Except PErr PyVal :=
  match x with
  | .ok n => .ok (.int n)
  | .error .keyError => .ok .none
  | .error .indexError => .ok .none
  | .error e => .error e

/-- `production_phase(phase)`: `phase_map = {"production_l1": 0,
"production_l2": 1, "production_l3": 2}`; indexes
`raw["production"][idx]["lines"][phase_map[phase]]["wNow"]` inside the
KeyError/IndexError guard; returns `None` for other classes. -/
def production_phase (st : EnvoyState) (phase : String) : Except PErr PyVal := do
  let phase_map : List (String × Nat) :=
    [("production_l1", 0), ("production_l2", 1), ("production_l3", 2)]
  if st.endpoint_type = some ENVOY_MODEL_S then
    let raw_json ← cachedJson st.endpoint_production_json_results
    let idx := if st.isMeteringEnabled then 1 else 0
    phaseTry (do
      let p ← jget raw_json "production"
      let e ← jidx p idx
      let lines ← jget e "lines"
      let pi ← match phase_map.find? (fun kv => kv.1 == phase) with
        | Option.some kv => pure kv.2
        | Option.none => Except.error PErr.keyError
      let l ← jidx lines pi
      let w ← jget l "wNow"
      pyInt w)
  else pure .none

/-- `consumption()`: `if self.endpoint_type in ENVOY_MODEL_C` (a substring
test, a `TypeError` when the class is still `None`) returns the sentinel
message; otherwise reads `raw["consumption"][0]["wNow"]` unguarded. -/
def consumption (st : EnvoyState) : Except PErr PyVal := do
  let b ← pyInStrOpt st.endpoint_type ENVOY_MODEL_C
  if b then pure (.str message_consumption_not_available)
  else do
    let raw_json ← cachedJson st.endpoint_production_json_results
    let c ← jget raw_json "consumption"
    let e ← jidx c 0
    let w ← jget e "wNow"
    let n ← pyInt w
    pure (.int n)

/-- `consumption_phase(phase)`: `phase_map = {"consumption_l1": 0,
"consumption_l2": 1, "consumption_l3": 2}`; `None` for
production-only classes, indexed read inside the KeyError/IndexError
guard. -/
def consumption_phase (st : EnvoyState) (phase : String) : Except PErr PyVal := do
  let phase_map : List (String × Nat) :=
    [("consumption_l1", 0), ("consumption_l2", 1), ("consumption_l3", 2)]
  let b ← pyInStrOpt st.endpoint_type ENVOY_MODEL_C
  if b then pure .none
  else do
    let raw_json ← cachedJson st.endpoint_production_json_results
    phaseTry (do
      let c ← jget raw_json "consumption"
      let e ← jidx c 0
      let lines ← jget e "lines"
      let pi ← match phase_map.find? (fun kv => kv.1 == phase) with
        | Option.some kv => pure kv.2
        | Option.none => Except.error PErr.keyError
      let l ← jidx lines pi
      let w ← jget l "wNow"
      pyInt w)

/-- `daily_consumption()`: sentinel for production-only classes, else
`raw["consumption"][0]["whToday"]` unguarded. -/
def daily_consumption (st : EnvoyState) : Except PErr PyVal := do
  let b ← pyInStrOpt st.endpoint_type ENVOY_MODEL_C
  if b then pure (.str message_consumption_not_available)
  else do
    let raw_json ← cachedJson st.endpoint_production_json_results
    let c ← jget raw_json "consumption"
    let e ← jidx c 0
    let w ← jget e "whToday"
    let n ← pyInt w
    pure (.int n)

/-- `daily_consumption_phase(phase)`: defines `phase_map =
{"daily_consumption_l1": 0, "daily_consumption_l2": 1,
"daily_consumption_l3": 2}` but then reads
`raw_json["consumption"][0]["lines"][0]["whToday"]` — the literal index 0,
for every phase (the map is never used). -/
def daily_consumption_phase (st : EnvoyState) (phase : String) :
    Except PErr PyVal := do
  let phase_map : List (String × Nat) :=
    [("daily_consumption_l1", 0), ("daily_consumption_l2", 1),
      ("daily_consumption_l3", 2)]
  let _ := phase_map
  let _ := phase
  let b ← pyInStrOpt st.endpoint_type ENVOY_MODEL_C
  if b then pure .none
  else do
    let raw_json ← cachedJson st.endpoint_production_json_results
    phaseTry (do
      let c ← jget raw_json "consumption"
      let e ← jidx c 0
      let lines ← jget e "lines"
      let l ← jidx lines 0
      let w ← jget l "whToday"
      pyInt w)

/-- `seven_days_consumption()`: sentinel for production-only classes, else
`raw["consumption"][0]["whLastSevenDays"]` unguarded. -/
def seven_days_consumption (st : EnvoyState) : Except PErr PyVal := do
  let b ← pyInStrOpt st.endpoint_type ENVOY_MODEL_C
  if b then pure (.str message_consumption_not_available)
  else do
    let raw_json ← cachedJson st.endpoint_production_json_results
    let c ← jget raw_json "consumption"
    let e ← jidx c 0
    let w ← jget e "whLastSevenDays"
    let n ← pyInt w
    pure (.int n)

/-- `lifetime_consumption()`: sentinel for production-only classes, else
`raw["consumption"][0]["whLifetime"]` unguarded. -/
def lifetime_consumption (st : EnvoyState) : Except PErr PyVal := do
  let b ← pyInStrOpt st.endpoint_type ENVOY_MODEL_C
  if b then pure (.str message_consumption_not_available)
  else do
    let raw_json ← cachedJson st.endpoint_production_json_results
    let c ← jget raw_json "consumption"
    let e ← jidx c 0
    let w ← jget e "whLifetime"
    let n ← pyInt w
    pure (.int n)

/-- `lifetime_consumption_phase(phase)`: `phase_map =
{"lifetime_consumption_l1": 0, "lifetime_consumption_l2": 1,
"lifetime_consumption_l3": 2}`; `None` for production-only classes,
indexed read inside the KeyError/IndexError guard. -/
def lifetime_consumption_phase (st : EnvoyState) (phase : String) :
    Except PErr PyVal := do
  let phase_map : List (String × Nat) :=
    [("lifetime_consumption_l1", 0), ("lifetime_consumption_l2", 1),
      ("lifetime_consumption_l3", 2)]
  let b ← pyInStrOpt st.endpoint_type ENVOY_MODEL_C
  if b then pure .none
  else do
    let raw_json ← cachedJson st.endpoint_production_json_results
    phaseTry (do
      let c ← jget raw_json "consumption"
      let e ← jidx c 0
      let lines ← jget e "lines"
      let pi ← match phase_map.find? (fun kv => kv.1 == phase) with
        | Option.some kv => pure kv.2
        | Option.none => Except.error PErr.keyError
      let l ← jidx lines pi
      let w ← jget l "whLifetime"
      pyInt w)

/-- The combined production/consumption probe returned HTTP 401. -/
def combinedProbe401 (env : Env) : Prop :=
  match env.fetch .production_json with
  | .value (some r) => r.status_code = 401
  | _ => False

/-- The combined probe succeeded: it returned HTTP 200 and its body has
both a `production` and a `consumption` section. -/
def combinedProbeSucceeds (env : Env) : Prop :=
  match env.fetch .production_json with
  | .value (some r) =>
    r.status_code = 200 ∧ has_production_and_consumption r.body = .ok true
  | _ => False

/-- The production-only probe succeeded: it returned HTTP 200. -/
def productionProbeSucceeds (env : Env) : Prop :=
  match env.fetch .production_v1 with
  | .value (some r) => r.status_code = 200
  | _ => False

/-- Environment builder with fixed non-fetch outcomes. -/
def mkEnv (f : Ep → FetchResult) : Env :=
  { fetch := f
    now := 0
    decodeExp := fun _ => none
    ownerToken := .ok "tok"
    refreshCookies := .ok true }

/-- A 200 response with an empty-object body. -/
def okResp : Response := ⟨200, .obj []⟩

/-- Every endpoint answers 200. -/
def envAllOk : Env := mkEnv (fun _ => .value (some okResp))

/-- The production.json fetch raises a transport error after its retries;
every other endpoint answers 200. -/
def envPjRaises : Env := mkEnv (fun ep =>
  match ep with
  | .production_json => .raisedTransport
  | _ => .value (some okResp))

/-- The ensemble-inventory fetch raises a transport error; every other
endpoint answers 200. -/
def envEnsRaises : Env := mkEnv (fun ep =>
  match ep with
  | .ensemble_inventory => .raisedTransport
  | _ => .value (some okResp))

/-- Every endpoint answers 404 (fetch returns `None`). -/
def env404 : Env := mkEnv (fun _ => .value none)

/-- Every endpoint answers 401. -/
def env401 : Env :=
  { mkEnv (fun _ => .value (some ⟨401, .null⟩)) with
    decodeExp := fun _ => some 1000000
    now := 0 }

/-- A session already classified as `ENVOY_MODEL_S` ("PC"). -/
def stPC : EnvoyState := { initState with endpoint_type := some ENVOY_MODEL_S }

/-- A session already classified as `ENVOY_MODEL_C` ("P"). -/
def stP : EnvoyState := { initState with endpoint_type := some ENVOY_MODEL_C }

/-- Retry environment where every GET attempt answers 401 and the cookie
refresh never succeeds. -/
def fenv401 : FEnv :=
  { net := fun _ => .response ⟨401, .null⟩
    cookieOk := fun _ => false }

/-- Retry environment where the first GET attempt answers 404. -/
def fenv404 : FEnv :=
  { net := fun _ => .response ⟨404, .null⟩
    cookieOk := fun _ => true }

/-- Combined-endpoint body of a metered-capable device whose metering CT
count is zero. -/
def bodyC6 : Json :=
  .obj [("production", .arr [.null, .obj [("activeCount", .num 0)]]),
    ("consumption", .arr [])]

/-- Environment whose combined probe answers 200 with `bodyC6` and whose
other endpoints answer 200. -/
def envC6 : Env := mkEnv (fun ep =>
  match ep with
  | .production_json => .value (some ⟨200, bodyC6⟩)
  | _ => .value (some okResp))

/-- production.json body with three per-phase consumption line entries. -/
def bodyPhases : Json :=
  .obj [("consumption",
    .arr [.obj [("wNow", .num 600),
      ("lines", .arr [.obj [("whToday", .num 11)],
        .obj [("whToday", .num 22)], .obj [("whToday", .num 33)]])]])]

/-- A "PC" session whose cached production.json body is `bodyPhases`. -/
def stPhases : EnvoyState :=
  setEp stPC .production_json (some ⟨200, bodyPhases⟩)

/-- Configuration without inverter polling and with a zero refresh buffer. -/
def cfgNoInv : EnvoyConfig := ⟨false, 0⟩

/-- Configuration with inverter polling and a zero refresh buffer. -/
def cfgInv : EnvoyConfig := ⟨true, 0⟩

/-- A "P" session holding the cached token "tok". -/
def stTokP : EnvoyState := { stP with _token := "tok" }

/-- Environment at the exact boundary instant: the decoded expiry of "tok"
equals the current time. -/
def envBoundary : Env :=
  { fetch := fun _ => .value (some okResp)
    now := 1000
    decodeExp := fun t => if t = "tok" then some 1000 else none
    ownerToken := .ok "newtok"
    refreshCookies := .ok true }

/-- Same environment but well before expiry. -/
def envFresh : Env :=
  { fetch := fun _ => .value (some okResp)
    now := 0
    decodeExp := fun t => if t = "tok" then some 1000 else none
    ownerToken := .ok "newtok"
    refreshCookies := .ok true }

/-- The api/v1/production response of the C9 scenario. -/
def respC9 : Response := ⟨200, .obj [("wattsNow", .num 300)]⟩

/-- A "P" session whose cached api/v1/production body is
`{"wattsNow": 300}`. -/
def stC9 : EnvoyState := setEp stP .production_v1 (some respC9)

/-- The non-inverter endpoints one poll cycle (`_update`) fetches for the
session's capability class and flags, in the fixed order `_update` tries
them: the three "PC" endpoints, then the production-only endpoint, then
the installer endpoints (the conditions are exactly the three `if`s of
`_update`). -/
def cycleEndpoints (st : EnvoyState) : List Ep :=
  (if st.endpoint_type = some ENVOY_MODEL_S then
    [.production_json, .ensemble_inventory, .home_json]
  else []) ++
  (if st.endpoint_type = some ENVOY_MODEL_C ∨
      (st.endpoint_type = some ENVOY_MODEL_S ∧ st.isMeteringEnabled = false) then
    [.production_v1]
  else []) ++
  (if st.installer_access then [.devstatus, .production_power] else [])

/-- The api/v1/production fetch raises a transport error after its
retries; every other endpoint answers 200. -/
def envV1Raises : Env := mkEnv (fun ep =>
  match ep with
  | .production_v1 => .raisedTransport
  | _ => .value (some okResp))

theorem setEp_cache (st : EnvoyState) (ep : Ep) (r : Option Response) (e : Ep) :
    (setEp st ep r).cache e = if e = ep then r else st.cache e := rfl

theorem ue_state_type (env : Env) (st : EnvoyState) (ep : Ep) (oos : Bool) :
    (_update_endpoint env st ep oos).state.endpoint_type = st.endpoint_type := by
  unfold _update_endpoint
  repeat' split
  all_goals rfl

theorem ue_state_met (env : Env) (st : EnvoyState) (ep : Ep) (oos : Bool) :
    (_update_endpoint env st ep oos).state.isMeteringEnabled = st.isMeteringEnabled := by
  unfold _update_endpoint
  repeat' split
  all_goals rfl

theorem ue_cache_ne (env : Env) (st : EnvoyState) (ep : Ep) (oos : Bool)
    (e : Ep) (h : e ≠ ep) :
    (_update_endpoint env st ep oos).state.cache e = st.cache e := by
  unfold _update_endpoint
  repeat' split
  all_goals simp [setEp_cache, h]

theorem ue_err_of (env : Env) (st : EnvoyState) (ep : Ep) (oos : Bool) (e : PErr)
    (h : (_update_endpoint env st ep oos).err? = some e) :
    e = .transportError ∨ (oos = true ∧ e = .attributeError) := by
  revert h
  unfold _update_endpoint
  repeat' split
  all_goals intro h
  all_goals simp_all

theorem ue_err_of_not_oos (env : Env) (st : EnvoyState) (ep : Ep) (e : PErr)
    (h : (_update_endpoint env st ep false).err? = some e) :
    e = .transportError := by
  rcases ue_err_of env st ep false e h with h1 | h1
  · exact h1
  · exact absurd h1.1 (by simp)

theorem ue_err_none_of_resp (env : Env) (st : EnvoyState) (ep : Ep) (oos : Bool)
    (resp : Response) (h : env.fetch ep = .value (some resp)) :
    (_update_endpoint env st ep oos).err? = none := by
  simp only [_update_endpoint, h]
  repeat' split
  all_goals rfl

theorem andThen_err_some (r : UpRes) (f : EnvoyState → UpRes) (e : PErr)
    (h : r.err? = some e) : r.andThen f = r := by
  unfold UpRes.andThen
  rw [h]

theorem andThen_err_none (r : UpRes) (f : EnvoyState → UpRes)
    (h : r.err? = none) :
    r.andThen f =
      ⟨(f r.state).state, (f r.state).err?, r.attempted ++ (f r.state).attempted⟩ := by
  unfold UpRes.andThen
  rw [h]

theorem andThen_err_none_of (r : UpRes) (f : EnvoyState → UpRes)
    (h1 : r.err? = none) (h2 : (f r.state).err? = none) :
    (r.andThen f).err? = none := by
  rw [andThen_err_none r f h1]
  exact h2

theorem andThen_getter {α : Type} (g : EnvoyState → α) (r : UpRes)
    (f : EnvoyState → UpRes) (h2 : ∀ s, g (f s).state = g s) :
    g (r.andThen f).state = g r.state := by
  unfold UpRes.andThen
  cases hr : r.err? with
  | some e => rfl
  | none => exact h2 r.state

theorem andThen_err_of (r : UpRes) (f : EnvoyState → UpRes) (P : PErr → Prop)
    (hr : ∀ e, r.err? = some e → P e) (hf : ∀ s e, (f s).err? = some e → P e)
    (e : PErr) (h : (r.andThen f).err? = some e) : P e := by
  unfold UpRes.andThen at h
  cases hr' : r.err? with
  | some e1 =>
    simp only [hr', Option.some.injEq] at h
    subst h
    exact hr e1 hr'
  | none =>
    simp only [hr'] at h
    exact hf r.state e h

theorem swallow_state (r : UpRes) : (swallowTransport r).state = r.state := by
  unfold swallowTransport
  repeat' split
  all_goals rfl

theorem swallow_attempted (r : UpRes) :
    (swallowTransport r).attempted = r.attempted := by
  unfold swallowTransport
  repeat' split
  all_goals rfl

theorem swallow_err_none (r : UpRes)
    (h : ∀ e, r.err? = some e → e = .transportError) :
    (swallowTransport r).err? = none := by
  unfold swallowTransport
  cases hr : r.err? with
  | none =>
    rw [hr]
  | some e =>
    have he := h e hr
    subst he
    rfl

theorem swallow_err_of (r : UpRes) (e : PErr)
    (h : (swallowTransport r).err? = some e) :
    r.err? = some e ∧ e ≠ .transportError := by
  revert h
  unfold swallowTransport
  split
  · intro h
    simp at h
  · intro h
    next hne =>
      refine ⟨h, ?_⟩
      intro he
      subst he
      exact hne h

theorem upc_getter {α : Type} (g : EnvoyState → α) (env : Env) (st : EnvoyState)
    (h1 : ∀ s, g (_update_endpoint env s .production_json false).state = g s)
    (h2 : ∀ s, g (_update_endpoint env s .ensemble_inventory false).state = g s)
    (h3 : ∀ s, g (_update_endpoint env s .home_json false).state = g s) :
    g (_update_from_pc_endpoint env st).state = g st :=
  (andThen_getter g _ _ (fun s1 =>
    (andThen_getter g _ _ (fun s2 => h3 s2)).trans (h2 s1))).trans (h1 st)

theorem upi_getter {α : Type} (g : EnvoyState → α) (env : Env) (st : EnvoyState)
    (h1 : ∀ s, g (_update_endpoint env s .devstatus true).state = g s)
    (h2 : ∀ s, g (_update_endpoint env s .production_power true).state = g s) :
    g (_update_from_installer_endpoint env st).state = g st :=
  (andThen_getter g _ _ (fun s1 => h2 s1)).trans (h1 st)

theorem upc_state_type (env : Env) (st : EnvoyState) :
    (_update_from_pc_endpoint env st).state.endpoint_type = st.endpoint_type :=
  upc_getter (fun s => s.endpoint_type) env st
    (fun s => ue_state_type env s .production_json false)
    (fun s => ue_state_type env s .ensemble_inventory false)
    (fun s => ue_state_type env s .home_json false)

theorem upc_state_met (env : Env) (st : EnvoyState) :
    (_update_from_pc_endpoint env st).state.isMeteringEnabled = st.isMeteringEnabled :=
  upc_getter (fun s => s.isMeteringEnabled) env st
    (fun s => ue_state_met env s .production_json false)
    (fun s => ue_state_met env s .ensemble_inventory false)
    (fun s => ue_state_met env s .home_json false)

theorem upc_state_v1 (env : Env) (st : EnvoyState) :
    (_update_from_pc_endpoint env st).state.cache .production_v1 =
      st.cache .production_v1 :=
  upc_getter (fun s => s.cache .production_v1) env st
    (fun s => ue_cache_ne env s .production_json false _ (by simp))
    (fun s => ue_cache_ne env s .ensemble_inventory false _ (by simp))
    (fun s => ue_cache_ne env s .home_json false _ (by simp))

theorem upc_state_pj (env : Env) (st : EnvoyState) :
    (_update_from_pc_endpoint env st).state.cache .production_json =
      (match env.fetch .production_json with
       | .raisedTransport => st.cache .production_json
       | .value r => r) := by
  cases h1 : env.fetch .production_json <;>
    cases h2 : env.fetch .ensemble_inventory <;>
      cases h3 : env.fetch .home_json <;>
        simp [_update_from_pc_endpoint, _update_endpoint, UpRes.andThen,
          h1, h2, h3, setEp_cache]

theorem upc_err_of (env : Env) (st : EnvoyState) (e : PErr)
    (h : (_update_from_pc_endpoint env st).err? = some e) : e = .transportError :=
  andThen_err_of _ _ (fun e => e = PErr.transportError)
    (fun e1 h1 => ue_err_of_not_oos env st .production_json e1 h1)
    (fun s e1 h1 =>
      andThen_err_of _ _ (fun e => e = PErr.transportError)
        (fun e2 h2 => ue_err_of_not_oos env s .ensemble_inventory e2 h2)
        (fun s2 e2 h2 => ue_err_of_not_oos env s2 .home_json e2 h2) e1 h1)
    e h

theorem upp_char (env : Env) (st : EnvoyState) :
    _update_from_p_endpoint env st =
      (match env.fetch .production_v1 with
       | .raisedTransport => ⟨st, some .transportError, [.production_v1]⟩
       | .value r => ⟨setEp st .production_v1 r, none, [.production_v1]⟩) := by
  unfold _update_from_p_endpoint _update_endpoint
  cases env.fetch .production_v1 <;> rfl

theorem ue_err_of_oos (env : Env) (st : EnvoyState) (ep : Ep) (e : PErr)
    (h : (_update_endpoint env st ep true).err? = some e) :
    e = .transportError ∨ e = .attributeError := by
  rcases ue_err_of env st ep true e h with h1 | h1
  · exact Or.inl h1
  · exact Or.inr h1.2

theorem upi_err_of (env : Env) (st : EnvoyState) (e : PErr)
    (h : (_update_from_installer_endpoint env st).err? = some e) :
    e = .transportError ∨ e = .attributeError :=
  andThen_err_of _ _ (fun e => e = PErr.transportError ∨ e = PErr.attributeError)
    (fun e1 h1 => ue_err_of_oos env st .devstatus e1 h1)
    (fun s e1 h1 => ue_err_of_oos env s .production_power e1 h1) e h

theorem installer_stage_err_of (env : Env) (s : EnvoyState) (e : PErr)
    (h : (detect_installer_stage env s).err? = some e) : e = .attributeError := by
  refine andThen_err_of _ _ (fun e => e = PErr.attributeError) ?_ ?_ e h
  · intro e1 h1
    obtain ⟨h2, h3⟩ := swallow_err_of _ e1 h1
    rcases upi_err_of env s e1 h2 with h4 | h4
    · exact absurd h4 h3
    · exact h4
  · intro s1 e1 h1
    revert h1
    split <;> intro h1 <;> simp at h1

theorem installer_stage_type (env : Env) (s : EnvoyState) :
    (detect_installer_stage env s).state.endpoint_type = s.endpoint_type := by
  unfold detect_installer_stage
  rw [andThen_getter (fun x => x.endpoint_type)]
  · rw [swallow_state]
    exact upi_getter (fun x => x.endpoint_type) env s
      (fun s1 => ue_state_type env s1 .devstatus true)
      (fun s1 => ue_state_type env s1 .production_power true)
  · intro s1
    split <;> rfl

theorem installer_stage_met (env : Env) (s : EnvoyState) :
    (detect_installer_stage env s).state.isMeteringEnabled = s.isMeteringEnabled := by
  unfold detect_installer_stage
  rw [andThen_getter (fun x => x.isMeteringEnabled)]
  · rw [swallow_state]
    exact upi_getter (fun x => x.isMeteringEnabled) env s
      (fun s1 => ue_state_met env s1 .devstatus true)
      (fun s1 => ue_state_met env s1 .production_power true)
  · intro s1
    split <;> rfl

theorem p_branch_err_none (env : Env) (s : EnvoyState) :
    (detect_p_branch env s).err? = none := by
  unfold detect_p_branch
  split
  · refine andThen_err_none_of _ _ ?_ ?_
    · exact swallow_err_none _ (fun e h => ue_err_of_not_oos env s .production_v1 e h)
    · repeat' split
      all_goals rfl
  · rfl

theorem p_branch_type (env : Env) (s : EnvoyState) (hT : s.endpoint_type = none)
    (hV1 : s.cache .production_v1 = none) :
    (detect_p_branch env s).state.endpoint_type =
      (match env.fetch .production_v1 with
       | .value (some r) => if r.status_code == 200 then some ENVOY_MODEL_C else none
       | _ => none) := by
  unfold detect_p_branch
  rw [if_pos hT]
  cases hf : env.fetch .production_v1 with
  | raisedTransport =>
    simp [_update_from_p_endpoint, _update_endpoint, hf, swallowTransport,
      UpRes.andThen, EnvoyState.endpoint_production_v1_results, hV1, hT]
  | value r =>
    cases r with
    | none =>
      simp [_update_from_p_endpoint, _update_endpoint, hf, swallowTransport,
        UpRes.andThen, EnvoyState.endpoint_production_v1_results, setEp_cache,
        setEp, hT]
    | some resp =>
      have hc : (setEp s Ep.production_v1 (some resp)).cache Ep.production_v1 =
          some resp := by
        simp [setEp_cache]
      simp only [_update_from_p_endpoint, _update_endpoint, hf, swallowTransport,
        UpRes.andThen, EnvoyState.endpoint_production_v1_results, hc]
      by_cases hsc : resp.status_code = 200
      · simp_all [setEp]
      · simp_all [setEp]

theorem update_err_none_of_resp (env : Env) (st : EnvoyState)
    (h : ∀ ep, ∃ resp, env.fetch ep = .value (some resp)) :
    (_update env st).err? = none := by
  have hue : ∀ (s : EnvoyState) (ep : Ep) (oos : Bool),
      (_update_endpoint env s ep oos).err? = none := by
    intro s ep oos
    obtain ⟨resp, hr⟩ := h ep
    exact ue_err_none_of_resp env s ep oos resp hr
  have hupc : ∀ s, (_update_from_pc_endpoint env s).err? = none := by
    intro s
    exact andThen_err_none_of _ _ (hue _ _ _)
      (andThen_err_none_of _ _ (hue _ _ _) (hue _ _ _))
  have hupi : ∀ s, (_update_from_installer_endpoint env s).err? = none := by
    intro s
    exact andThen_err_none_of _ _ (hue _ _ _) (hue _ _ _)
  have hA : ∀ s : EnvoyState,
      (if s.endpoint_type = some ENVOY_MODEL_S then
          _update_from_pc_endpoint env s
        else ⟨s, none, []⟩).err? = none := by
    intro s
    split
    · exact hupc s
    · rfl
  have hB : ∀ s : EnvoyState,
      (if s.endpoint_type = some ENVOY_MODEL_C ∨
          (s.endpoint_type = some ENVOY_MODEL_S ∧ s.isMeteringEnabled = false) then
          _update_from_p_endpoint env s
        else ⟨s, none, []⟩).err? = none := by
    intro s
    split
    · exact hue _ _ _
    · rfl
  have hC : ∀ s : EnvoyState,
      (if s.installer_access = true then
          _update_from_installer_endpoint env s
        else ⟨s, none, []⟩).err? = none := by
    intro s
    split
    · exact hupi _
    · rfl
  unfold _update
  exact andThen_err_none_of _ _ (hA st)
    (andThen_err_none_of _ _ (hB _) (hC _))

theorem jget_err_of (x : Json) (k : String) (e : PErr) (h : jget x k = .error e) :
    e = .keyError ∨ e = .typeError := by
  revert h
  unfold jget
  repeat' split
  all_goals intro h
  all_goals simp_all

theorem jidx_err_of (x : Json) (i : Nat) (e : PErr) (h : jidx x i = .error e) :
    e = .indexError ∨ e = .keyError ∨ e = .typeError := by
  revert h
  unfold jidx
  repeat' split
  all_goals intro h
  all_goals simp_all

theorem pyGtZero_err_of (x : Json) (e : PErr) (h : pyGtZero x = .error e) :
    e = .typeError := by
  revert h
  unfold pyGtZero
  repeat' split
  all_goals intro h
  all_goals simp_all

theorem has_metering_err_of (j : Json) (e : PErr)
    (h : has_metering_setup j = .error e) :
    e = .keyError ∨ e = .indexError ∨ e = .typeError := by
  unfold has_metering_setup at h
  revert h
  cases h1 : jget j "production" with
  | error e1 =>
    intro h
    simp only [Except.error.injEq] at h
    subst h
    rcases jget_err_of j "production" e1 h1 with h2 | h2
    · exact Or.inl h2
    · exact Or.inr (Or.inr h2)
  | ok p =>
    intro h
    simp at h
    cases h2 : jidx p 1 with
    | error e2 =>
      rw [h2] at h
      simp at h
      subst h
      rcases jidx_err_of p 1 e2 h2 with h3 | h3 | h3
      · exact Or.inr (Or.inl h3)
      · exact Or.inl h3
      · exact Or.inr (Or.inr h3)
    | ok entry =>
      rw [h2] at h
      simp at h
      cases h3 : jget entry "activeCount" with
      | error e3 =>
        rw [h3] at h
        simp at h
        subst h
        rcases jget_err_of entry "activeCount" e3 h3 with h4 | h4
        · exact Or.inl h4
        · exact Or.inr (Or.inr h4)
      | ok a =>
        rw [h3] at h
        exact Or.inr (Or.inr (pyGtZero_err_of a e h))

theorem has_metering_eval (j : Json) (xs : List Json) (entry : Json) (n : Int)
    (hprod : jget j "production" = .ok (.arr xs)) (h1 : xs[1]? = some entry)
    (hact : jget entry "activeCount" = .ok (.num n)) :
    has_metering_setup j = .ok (decide (0 < n)) := by
  unfold has_metering_setup
  rw [hprod]
  simp [jidx, h1, hact, pyGtZero]

theorem detect_model_eq (env : Env) (st : EnvoyState) :
    detect_model env st =
      ⟨(detect_tail env (_update_from_pc_endpoint env st).state).state,
        (detect_tail env (_update_from_pc_endpoint env st).state).err?,
        (_update_from_pc_endpoint env st).attempted ++
          (detect_tail env (_update_from_pc_endpoint env st).state).attempted⟩ := by
  unfold detect_model
  rw [andThen_err_none _ _ (swallow_err_none _ (upc_err_of env st)),
    swallow_state, swallow_attempted]

theorem detect_tail_withtype (env : Env) (s1 s2 : EnvoyState) (att : List Ep)
    (h401 : pjIs401 s1 = false)
    (hpc : detect_pc_branch env s1 = ⟨s2, none, att⟩)
    (hty : s2.endpoint_type = some ENVOY_MODEL_S) :
    ((detect_tail env s1).err? = none ∨
      (detect_tail env s1).err? = some .attributeError) ∧
    (detect_tail env s1).state.endpoint_type = some ENVOY_MODEL_S ∧
    (detect_tail env s1).state.isMeteringEnabled = s2.isMeteringEnabled ∧
    (detect_tail env s1).attempted =
      att ++ (detect_installer_stage env s2).attempted := by
  have hp : detect_p_branch env s2 = ⟨s2, none, []⟩ := by
    simp [detect_p_branch, hty]
  have htail : detect_tail env s1 =
      ⟨(detect_installer_stage env s2).state,
        (detect_installer_stage env s2).err?,
        att ++ (detect_installer_stage env s2).attempted⟩ := by
    simp only [detect_tail, h401, Bool.false_eq_true, if_false, hpc,
      UpRes.andThen, hp, hty, List.nil_append]
    simp [hty]
  rw [htail]
  refine ⟨?_, ?_, ?_, ?_⟩
  · cases hi : (detect_installer_stage env s2).err? with
    | none => exact Or.inl rfl
    | some e =>
      have := installer_stage_err_of env s2 e hi
      subst this
      exact Or.inr rfl
  · rw [installer_stage_type env s2]
    exact hty
  · rw [installer_stage_met env s2]
  · rfl

theorem detect_tail_nopc (env : Env) (s1 : EnvoyState)
    (hT : s1.endpoint_type = none) (hV1 : s1.cache .production_v1 = none)
    (h401 : pjIs401 s1 = false)
    (hpc : detect_pc_branch env s1 = ⟨s1, none, []⟩) :
    (productionProbeSucceeds env →
      ((detect_tail env s1).err? = none ∨
        (detect_tail env s1).err? = some .attributeError) ∧
      (detect_tail env s1).state.endpoint_type = some ENVOY_MODEL_C) ∧
    (¬ productionProbeSucceeds env →
      (detect_tail env s1).err? = some .runtimeCouldNotDetermine) := by
  have hPerr := p_branch_err_none env s1
  have hPtype := p_branch_type env s1 hT hV1
  have htail : detect_tail env s1 =
      ⟨(if (detect_p_branch env s1).state.endpoint_type = none then
          (⟨(detect_p_branch env s1).state, some .runtimeCouldNotDetermine, []⟩ : UpRes)
        else detect_installer_stage env (detect_p_branch env s1).state).state,
       (if (detect_p_branch env s1).state.endpoint_type = none then
          (⟨(detect_p_branch env s1).state, some .runtimeCouldNotDetermine, []⟩ : UpRes)
        else detect_installer_stage env (detect_p_branch env s1).state).err?,
       (detect_p_branch env s1).attempted ++
         (if (detect_p_branch env s1).state.endpoint_type = none then
            (⟨(detect_p_branch env s1).state, some .runtimeCouldNotDetermine, []⟩ : UpRes)
          else detect_installer_stage env (detect_p_branch env s1).state).attempted⟩ := by
    simp only [detect_tail, h401, Bool.false_eq_true, if_false, hpc,
      UpRes.andThen, hPerr, List.nil_append]
  cases hv : env.fetch .production_v1 with
  | raisedTransport =>
    rw [hv] at hPtype
    simp at hPtype
    have hns : ¬ productionProbeSucceeds env := by
      simp [productionProbeSucceeds, hv]
    refine ⟨fun hs => absurd hs hns, fun _ => ?_⟩
    rw [htail]
    simp [hPtype]
  | value r =>
    cases r with
    | none =>
      rw [hv] at hPtype
      simp at hPtype
      have hns : ¬ productionProbeSucceeds env := by
        simp [productionProbeSucceeds, hv]
      refine ⟨fun hs => absurd hs hns, fun _ => ?_⟩
      rw [htail]
      simp [hPtype]
    | some resp =>
      rw [hv] at hPtype
      by_cases hb : resp.status_code = 200
      · have hs : productionProbeSucceeds env := by
          simp [productionProbeSucceeds, hv, hb]
        simp [hb] at hPtype
        refine ⟨fun _ => ?_, fun hns => absurd hs hns⟩
        rw [htail]
        rw [if_neg (by simp [hPtype, ENVOY_MODEL_C])]
        refine ⟨?_, ?_⟩
        · cases hi : (detect_installer_stage env
              (detect_p_branch env s1).state).err? with
          | none => exact Or.inl rfl
          | some e =>
            have := installer_stage_err_of env _ e hi
            subst this
            exact Or.inr rfl
        · rw [installer_stage_type env _]
          exact hPtype
      · have hns : ¬ productionProbeSucceeds env := by
          simp [productionProbeSucceeds, hv, hb]
        simp [hb] at hPtype
        refine ⟨fun hs => absurd hs hns, fun _ => ?_⟩
        rw [htail]
        simp [hPtype]

/-- The three-part specification of `detect_model`'s outcome used by the
claim about detection errors. -/
def DetectSpec (env : Env) (u : UpRes) : Prop :=
  (u.err? = some .runtimeSecureComm ↔ combinedProbe401 env) ∧
  (u.err? = some .runtimeCouldNotDetermine ↔
    (¬ combinedProbe401 env ∧ ¬ combinedProbeSucceeds env ∧
      ¬ productionProbeSucceeds env)) ∧
  (u.err? = none →
    u.state.endpoint_type = some ENVOY_MODEL_S ∨
    u.state.endpoint_type = some ENVOY_MODEL_C)

theorem char_of_nopc (env : Env) (s1 : EnvoyState)
    (hT : s1.endpoint_type = none) (hV1 : s1.cache .production_v1 = none)
    (h401 : pjIs401 s1 = false)
    (hpc : detect_pc_branch env s1 = ⟨s1, none, []⟩)
    (hc1 : ¬ combinedProbe401 env) (hc2 : ¬ combinedProbeSucceeds env) :
    DetectSpec env (detect_tail env s1) := by
  obtain ⟨hy, hn⟩ := detect_tail_nopc env s1 hT hV1 h401 hpc
  by_cases hps : productionProbeSucceeds env
  · obtain ⟨he, hty⟩ := hy hps
    refine ⟨?_, ?_, ?_⟩
    · constructor
      · intro h
        rcases he with h1 | h1 <;> rw [h1] at h <;> simp at h
      · intro h
        exact absurd h hc1
    · constructor
      · intro h
        rcases he with h1 | h1 <;> rw [h1] at h <;> simp at h
      · intro h
        exact absurd hps h.2.2
    · intro _
      exact Or.inr hty
  · have he := hn hps
    refine ⟨?_, ?_, ?_⟩
    · constructor
      · intro h
        rw [he] at h
        simp at h
      · intro h
        exact absurd h hc1
    · constructor
      · intro _
        exact ⟨hc1, hc2, hps⟩
      · intro _
        exact he
    · intro h
      rw [he] at h
      simp at h

theorem char_of_withtype (env : Env) (s1 : EnvoyState)
    (hc1 : ¬ combinedProbe401 env) (hc2 : combinedProbeSucceeds env)
    (he : (detect_tail env s1).err? = none ∨
      (detect_tail env s1).err? = some .attributeError)
    (hty : (detect_tail env s1).state.endpoint_type = some ENVOY_MODEL_S) :
    DetectSpec env (detect_tail env s1) := by
  refine ⟨?_, ?_, ?_⟩
  · constructor
    · intro h
      rcases he with h1 | h1 <;> rw [h1] at h <;> simp at h
    · intro h
      exact absurd h hc1
  · constructor
    · intro h
      rcases he with h1 | h1 <;> rw [h1] at h <;> simp at h
    · intro hr
      exact absurd hc2 hr.2.1
  · intro _
    exact Or.inl hty

theorem char_of_err (env : Env) (s1 : EnvoyState) (e : PErr)
    (ht : (detect_tail env s1).err? = some e)
    (hne1 : e ≠ .runtimeSecureComm) (hne2 : e ≠ .runtimeCouldNotDetermine)
    (hc1 : ¬ combinedProbe401 env) (hc2 : combinedProbeSucceeds env) :
    DetectSpec env (detect_tail env s1) := by
  refine ⟨?_, ?_, ?_⟩
  · constructor
    · intro h
      rw [ht] at h
      simp at h
      exact absurd h hne1
    · intro h
      exact absurd h hc1
  · constructor
    · intro h
      rw [ht] at h
      simp at h
      exact absurd h hne2
    · intro hr
      exact absurd hc2 hr.2.1
  · intro h
    rw [ht] at h
    simp at h

theorem detect_tail_char (env : Env) (s1 : EnvoyState)
    (hT : s1.endpoint_type = none)
    (hV1 : s1.cache .production_v1 = none)
    (hPJ : s1.cache .production_json =
      (match env.fetch .production_json with
       | .raisedTransport => none
       | .value r => r))
    (hwf : ∀ r, env.fetch .production_json = .value (some r) →
      r.status_code = 200 →
      ∃ b, has_production_and_consumption r.body = .ok b) :
    DetectSpec env (detect_tail env s1) := by
  cases hf : env.fetch .production_json with
  | raisedTransport =>
    rw [hf] at hPJ
    simp at hPJ
    have h401 : pjIs401 s1 = false := by
      simp [pjIs401, EnvoyState.endpoint_production_json_results, hPJ]
    have hc1 : ¬ combinedProbe401 env := by simp [combinedProbe401, hf]
    have hc2 : ¬ combinedProbeSucceeds env := by
      simp [combinedProbeSucceeds, hf]
    have hpc : detect_pc_branch env s1 = ⟨s1, none, []⟩ := by
      simp [detect_pc_branch, EnvoyState.endpoint_production_json_results, hPJ]
    exact char_of_nopc env s1 hT hV1 h401 hpc hc1 hc2
  | value ro =>
    cases ro with
    | none =>
      rw [hf] at hPJ
      simp at hPJ
      have h401 : pjIs401 s1 = false := by
        simp [pjIs401, EnvoyState.endpoint_production_json_results, hPJ]
      have hc1 : ¬ combinedProbe401 env := by simp [combinedProbe401, hf]
      have hc2 : ¬ combinedProbeSucceeds env := by
        simp [combinedProbeSucceeds, hf]
      have hpc : detect_pc_branch env s1 = ⟨s1, none, []⟩ := by
        simp [detect_pc_branch, EnvoyState.endpoint_production_json_results, hPJ]
      exact char_of_nopc env s1 hT hV1 h401 hpc hc1 hc2
    | some r =>
      rw [hf] at hPJ
      simp at hPJ
      by_cases h401p : r.status_code = 401
      · have hpj : pjIs401 s1 = true := by
          simp [pjIs401, EnvoyState.endpoint_production_json_results, hPJ, h401p]
        have ht : detect_tail env s1 = ⟨s1, some .runtimeSecureComm, []⟩ := by
          simp [detect_tail, hpj]
        have hc1 : combinedProbe401 env := by
          simp [combinedProbe401, hf, h401p]
        refine ⟨?_, ?_, ?_⟩
        · rw [ht]
          simp [hc1]
        · rw [ht]
          constructor
          · intro h
            simp at h
          · intro hr
            exact absurd hc1 hr.1
        · rw [ht]
          intro h
          simp at h
      · have hpj : pjIs401 s1 = false := by
          simp [pjIs401, EnvoyState.endpoint_production_json_results, hPJ]
          exact h401p
        have hc1 : ¬ combinedProbe401 env := by
          simp [combinedProbe401, hf]
          exact h401p
        by_cases h200 : r.status_code = 200
        · obtain ⟨b, hb⟩ := hwf r hf h200
          cases b with
          | false =>
            have hc2 : ¬ combinedProbeSucceeds env := by
              simp [combinedProbeSucceeds, hf, hb]
            have hpc : detect_pc_branch env s1 = ⟨s1, none, []⟩ := by
              simp [detect_pc_branch, EnvoyState.endpoint_production_json_results,
                hPJ, h200, hb]
            exact char_of_nopc env s1 hT hV1 hpj hpc hc1 hc2
          | true =>
            have hc2 : combinedProbeSucceeds env := by
              simp [combinedProbeSucceeds, hf, h200, hb]
            cases hm : has_metering_setup r.body with
            | error e =>
              have hpc : detect_pc_branch env s1 = ⟨s1, some e, []⟩ := by
                simp [detect_pc_branch, EnvoyState.endpoint_production_json_results,
                  hPJ, h200, hb, hm]
              have ht : detect_tail env s1 = ⟨s1, some e, []⟩ := by
                simp [detect_tail, hpj, hpc, UpRes.andThen]
              have hene := has_metering_err_of r.body e hm
              refine char_of_err env s1 e ?_ ?_ ?_ hc1 hc2
              · rw [ht]
              · rcases hene with h1 | h1 | h1 <;> subst h1 <;> simp
              · rcases hene with h1 | h1 | h1 <;> subst h1 <;> simp
            | ok m =>
              cases m with
              | true =>
                have hpc : detect_pc_branch env s1 =
                    ⟨{ { s1 with isMeteringEnabled := true } with
                        endpoint_type := some ENVOY_MODEL_S }, none, []⟩ := by
                  simp [detect_pc_branch, EnvoyState.endpoint_production_json_results,
                    hPJ, h200, hb, hm, UpRes.andThen]
                obtain ⟨he, hty, -, -⟩ :=
                  detect_tail_withtype env s1 _ _ hpj hpc (by rfl)
                exact char_of_withtype env s1 hc1 hc2 he hty
              | false =>
                cases hv1 : env.fetch .production_v1 with
                | raisedTransport =>
                  have hpc : detect_pc_branch env s1 =
                      ⟨{ s1 with isMeteringEnabled := false },
                        some .transportError, [.production_v1]⟩ := by
                    simp [detect_pc_branch, EnvoyState.endpoint_production_json_results,
                      hPJ, h200, hb, hm, _update_from_p_endpoint, _update_endpoint,
                      hv1, UpRes.andThen]
                  have ht : detect_tail env s1 =
                      ⟨{ s1 with isMeteringEnabled := false },
                        some .transportError, [.production_v1]⟩ := by
                    simp [detect_tail, hpj, hpc, UpRes.andThen]
                  refine char_of_err env s1 .transportError ?_ ?_ ?_ hc1 hc2
                  · rw [ht]
                  · simp
                  · simp
                | value rv =>
                  have hpc : detect_pc_branch env s1 =
                      ⟨{ setEp { s1 with isMeteringEnabled := false }
                            .production_v1 rv with
                          endpoint_type := some ENVOY_MODEL_S }, none,
                        [.production_v1]⟩ := by
                    simp [detect_pc_branch, EnvoyState.endpoint_production_json_results,
                      hPJ, h200, hb, hm, _update_from_p_endpoint, _update_endpoint,
                      hv1, UpRes.andThen]
                  obtain ⟨he, hty, -, -⟩ :=
                    detect_tail_withtype env s1 _ _ hpj hpc (by rfl)
                  exact char_of_withtype env s1 hc1 hc2 he hty
        · have hc2 : ¬ combinedProbeSucceeds env := by
            simp [combinedProbeSucceeds, hf, h200]
          have hpc : detect_pc_branch env s1 = ⟨s1, none, []⟩ := by
            simp [detect_pc_branch, EnvoyState.endpoint_production_json_results,
              hPJ, h200]
          exact char_of_nopc env s1 hT hV1 hpj hpc hc1 hc2

/-- C5: on a fresh session, `detect_model` fails with the "secure
communication required" detection error exactly when the combined
production/consumption probe returns HTTP 401, fails with the "could not
determine model" detection error exactly when neither the combined probe
nor the production-only probe succeeds, and otherwise — whenever it
returns without error — has set the capability class ("PC" or "P").
(`hwf` assumes the membership test on a 200 body does not itself raise,
i.e. the body is a JSON container as the device contract prescribes.) -/
theorem detect_model_error_classification (env : Env) (st : EnvoyState)
    (hT : st.endpoint_type = none)
    (hPJ0 : st.cache .production_json = none)
    (hV10 : st.cache .production_v1 = none)
    (hwf : ∀ r, env.fetch .production_json = .value (some r) →
      r.status_code = 200 →
      ∃ b, has_production_and_consumption r.body = .ok b) :
    ((detect_model env st).err? = some .runtimeSecureComm ↔
      combinedProbe401 env) ∧
    ((detect_model env st).err? = some .runtimeCouldNotDetermine ↔
      (¬ combinedProbe401 env ∧ ¬ combinedProbeSucceeds env ∧
        ¬ productionProbeSucceeds env)) ∧
    ((detect_model env st).err? = none →
      (detect_model env st).state.endpoint_type = some ENVOY_MODEL_S ∨
      (detect_model env st).state.endpoint_type = some ENVOY_MODEL_C) := by
  have hchar := detect_tail_char env (_update_from_pc_endpoint env st).state
    (by rw [upc_state_type]; exact hT)
    (by rw [upc_state_v1]; exact hV10)
    (by
      rw [upc_state_pj]
      cases henv : env.fetch .production_json with
      | raisedTransport => exact hPJ0
      | value r => rfl)
    hwf
  obtain ⟨c1, c2, c3⟩ := hchar
  rw [detect_model_eq]
  exact ⟨c1, c2, c3⟩

/-- Witness for the C5 theorem at a concrete environment in which every
endpoint returns 404: detection fails with "could not determine model". -/
theorem detect_model_error_classification_witness :
    ((detect_model env404 initState).err? = some .runtimeSecureComm ↔
      combinedProbe401 env404) ∧
    ((detect_model env404 initState).err? = some .runtimeCouldNotDetermine ↔
      (¬ combinedProbe401 env404 ∧ ¬ combinedProbeSucceeds env404 ∧
        ¬ productionProbeSucceeds env404)) ∧
    ((detect_model env404 initState).err? = none →
      (detect_model env404 initState).state.endpoint_type = some ENVOY_MODEL_S ∨
      (detect_model env404 initState).state.endpoint_type = some ENVOY_MODEL_C) :=
  detect_model_error_classification env404 initState rfl rfl rfl
    (fun r hr => by simp [env404, mkEnv] at hr)

/-- C6: during detection of a combined production/consumption device (the
combined probe answered 200 with both sections present), the
metering-enabled flag is set to `true` if and only if the production
section's metering entry `production[1]` reports an `activeCount` greater
than zero, and when the flag is `false` the production-only endpoint is
additionally probed. -/
theorem detect_model_metering_iff (env : Env) (st : EnvoyState)
    (r : Response) (hf : env.fetch .production_json = .value (some r))
    (hs : r.status_code = 200)
    (hpac : has_production_and_consumption r.body = .ok true)
    (xs : List Json) (entry : Json) (n : Int)
    (hprod : jget r.body "production" = .ok (.arr xs))
    (h1 : xs[1]? = some entry)
    (hact : jget entry "activeCount" = .ok (.num n)) :
    (detect_model env st).state.isMeteringEnabled = decide (0 < n) ∧
    (¬ 0 < n → Ep.production_v1 ∈ (detect_model env st).attempted) := by
  have hms := has_metering_eval r.body xs entry n hprod h1 hact
  have hS1pj : (_update_from_pc_endpoint env st).state.cache .production_json
      = some r := by
    rw [upc_state_pj, hf]
  have h401 : pjIs401 (_update_from_pc_endpoint env st).state = false := by
    simp [pjIs401, EnvoyState.endpoint_production_json_results, hS1pj, hs]
  rw [detect_model_eq]
  by_cases hn : 0 < n
  · have hms' : has_metering_setup r.body = .ok true := by
      rw [hms]
      simp [hn]
    have hpc : detect_pc_branch env (_update_from_pc_endpoint env st).state =
        ⟨{ { (_update_from_pc_endpoint env st).state with
              isMeteringEnabled := true } with
            endpoint_type := some ENVOY_MODEL_S }, none, []⟩ := by
      simp [detect_pc_branch, EnvoyState.endpoint_production_json_results,
        hS1pj, hs, hpac, hms', UpRes.andThen]
    obtain ⟨-, -, hmet, -⟩ :=
      detect_tail_withtype env _ _ _ h401 hpc (by rfl)
    refine ⟨?_, fun hcon => absurd hn hcon⟩
    simp only [hmet]
    simp [hn]
  · have hms' : has_metering_setup r.body = .ok false := by
      rw [hms]
      simp [hn]
    cases hv1 : env.fetch .production_v1 with
    | raisedTransport =>
      have hpc : detect_pc_branch env (_update_from_pc_endpoint env st).state =
          ⟨{ (_update_from_pc_endpoint env st).state with
              isMeteringEnabled := false }, some .transportError,
            [.production_v1]⟩ := by
        simp [detect_pc_branch, EnvoyState.endpoint_production_json_results,
          hS1pj, hs, hpac, hms', _update_from_p_endpoint, _update_endpoint,
          hv1, UpRes.andThen]
      have htail : detect_tail env (_update_from_pc_endpoint env st).state =
          ⟨{ (_update_from_pc_endpoint env st).state with
              isMeteringEnabled := false }, some .transportError,
            [.production_v1]⟩ := by
        simp [detect_tail, h401, hpc, UpRes.andThen]
      refine ⟨?_, fun _ => ?_⟩
      · simp only [htail]
        simp [hn]
      · simp [htail]
    | value rv =>
      have hpc : detect_pc_branch env (_update_from_pc_endpoint env st).state =
          ⟨{ setEp { (_update_from_pc_endpoint env st).state with
                isMeteringEnabled := false } .production_v1 rv with
              endpoint_type := some ENVOY_MODEL_S }, none,
            [.production_v1]⟩ := by
        simp [detect_pc_branch, EnvoyState.endpoint_production_json_results,
          hS1pj, hs, hpac, hms', _update_from_p_endpoint, _update_endpoint,
          hv1, UpRes.andThen]
      obtain ⟨-, -, hmet, hatt⟩ :=
        detect_tail_withtype env _ _ _ h401 hpc (by rfl)
      refine ⟨?_, fun _ => ?_⟩
      · simp only [hmet]
        simp [hn, setEp]
      · simp [hatt]

/-- Witness for the C6 theorem: with `activeCount = 0` the flag ends up
`false` and the production-only endpoint is probed during detection. -/
theorem detect_model_metering_iff_witness :
    (detect_model envC6 initState).state.isMeteringEnabled =
      decide ((0:Int) < 0) ∧
    (¬ (0:Int) < 0 →
      Ep.production_v1 ∈ (detect_model envC6 initState).attempted) :=
  detect_model_metering_iff envC6 initState ⟨200, bodyC6⟩ rfl rfl (by rfl)
    [.null, .obj [("activeCount", .num 0)]] (.obj [("activeCount", .num 0)]) 0
    (by rfl) rfl (by rfl)

/-- C1 counterexample: in a poll cycle on a "PC" session where the
production.json fetch raises a transport error, `_update` aborts with that
error and the ensemble and home endpoints are never attempted — a single
endpoint failure does prevent the remaining endpoints of the cycle. -/
theorem update_cycle_not_isolated :
    (_update envPjRaises stPC).err? = some .transportError ∧
    (_update envPjRaises stPC).attempted = [Ep.production_json] := by
  constructor <;> rfl

/-- C1 amended: `_update` has no per-endpoint exception isolation — for
every capability class and session flags, a fetch exception of any single
endpoint of the cycle propagates: the cycle aborts with the transport
error, and the endpoints ordered after the failing one in the cycle's
fixed order are never attempted (the attempted list is exactly the cycle
prefix up to and including the failing endpoint). -/
theorem update_cycle_aborts_on_endpoint_failure (env : Env) (st : EnvoyState)
    (ep : Ep) (hmem : ep ∈ cycleEndpoints st)
    (hraise : env.fetch ep = .raisedTransport)
    (hothers : ∀ e, e ≠ ep → ∃ r, env.fetch e = .value (some r)) :
    (_update env st).err? = some .transportError ∧
    (_update env st).attempted =
      (cycleEndpoints st).takeWhile (fun e => e != ep) ++ [ep] := by
  by_cases hA : st.endpoint_type = some "PC" <;>
    by_cases hP : st.endpoint_type = some "P" <;>
    by_cases hM : st.isMeteringEnabled = false <;>
    by_cases hC : st.installer_access = true
  all_goals try rw [hA] at hP
  all_goals try exact absurd hP (by decide)
  all_goals simp [cycleEndpoints, ENVOY_MODEL_S, ENVOY_MODEL_C, hA, hP, hM, hC] at hmem
  all_goals
    (first
      | (rcases hmem with rfl | rfl | rfl | rfl | rfl | rfl)
      | (rcases hmem with rfl | rfl | rfl | rfl | rfl)
      | (rcases hmem with rfl | rfl | rfl | rfl)
      | (rcases hmem with rfl | rfl | rfl)
      | (rcases hmem with rfl | rfl)
      | subst hmem)
  all_goals try (have hx1 := hothers .production_json (by decide); obtain ⟨r1, hr1⟩ := hx1)
  all_goals try (have hx2 := hothers .ensemble_inventory (by decide); obtain ⟨r2, hr2⟩ := hx2)
  all_goals try (have hx3 := hothers .home_json (by decide); obtain ⟨r3, hr3⟩ := hx3)
  all_goals try (have hx4 := hothers .production_v1 (by decide); obtain ⟨r4, hr4⟩ := hx4)
  all_goals try (have hx5 := hothers .devstatus (by decide); obtain ⟨r5, hr5⟩ := hx5)
  all_goals clear hothers
  all_goals
    simp_all [_update, _update_from_pc_endpoint, _update_from_p_endpoint,
      _update_from_installer_endpoint, _update_endpoint, UpRes.andThen,
      cycleEndpoints, setEp, ENVOY_MODEL_S, ENVOY_MODEL_C]
  all_goals repeat' split
  all_goals try simp_all

/-- Witness for the C1 amended theorem at three concrete cycles: the first
"PC" endpoint failing, the second "PC" endpoint failing after the first
was fetched, and the sole endpoint of a "P" cycle failing. -/
theorem update_cycle_aborts_on_endpoint_failure_witness :
    ((_update envPjRaises stPC).err? = some .transportError ∧
      (_update envPjRaises stPC).attempted =
        (cycleEndpoints stPC).takeWhile (fun e => e != Ep.production_json) ++
          [Ep.production_json]) ∧
    ((_update envEnsRaises stPC).err? = some .transportError ∧
      (_update envEnsRaises stPC).attempted =
        (cycleEndpoints stPC).takeWhile
            (fun e => e != Ep.ensemble_inventory) ++
          [Ep.ensemble_inventory]) ∧
    ((_update envV1Raises stP).err? = some .transportError ∧
      (_update envV1Raises stP).attempted =
        (cycleEndpoints stP).takeWhile (fun e => e != Ep.production_v1) ++
          [Ep.production_v1]) :=
  ⟨update_cycle_aborts_on_endpoint_failure envPjRaises stPC .production_json
      (by decide) rfl
      (fun e hne => ⟨okResp, by
        cases e
        all_goals first
          | rfl
          | exact absurd rfl hne⟩),
    update_cycle_aborts_on_endpoint_failure envEnsRaises stPC
      .ensemble_inventory (by decide) rfl
      (fun e hne => ⟨okResp, by
        cases e
        all_goals first
          | rfl
          | exact absurd rfl hne⟩),
    update_cycle_aborts_on_endpoint_failure envV1Raises stP .production_v1
      (by decide) rfl
      (fun e hne => ⟨okResp, by
        cases e
        all_goals first
          | rfl
          | exact absurd rfl hne⟩)⟩

/-- C2 counterexample: a 404 on the installer devstatus endpoint (fetched
with success-only overwrite) raises an `AttributeError` inside
`_update_from_installer_endpoint` instead of yielding an absent entry. -/
theorem installer_endpoint_404_raises :
    (_update_from_installer_endpoint env404 initState).err? =
      some .attributeError := by
  rfl

/-- C2 amended: a 404 response makes `_async_fetch_with_retry` return
`None`; for the plain endpoints `_update_endpoint` then stores `None` (an
absent cache entry) without error, but for the installer-only endpoints
(success-only overwrite) the status check dereferences `None` and raises
`AttributeError`. -/
theorem endpoint_404_behavior (env : Env) (st : EnvoyState) (ep : Ep) :
    ((ep = .production_json ∨ ep = .ensemble_inventory ∨ ep = .home_json ∨
        ep = .production_v1) →
      env.fetch ep = .value none →
      (_update_endpoint env st ep false).err? = none ∧
      (_update_endpoint env st ep false).state.cache ep = none) ∧
    ((ep = .devstatus ∨ ep = .production_power) →
      env.fetch ep = .value none →
      (_update_endpoint env st ep true).err? = some .attributeError) ∧
    (∀ (fenv : FEnv) (r : Response), fenv.net 0 = .response r →
      r.status_code = 404 → (_async_fetch_with_retry fenv).1 = .value none) := by
  refine ⟨?_, ?_, ?_⟩
  · intro _ hf
    constructor
    · simp [_update_endpoint, hf]
    · simp [_update_endpoint, hf, setEp_cache]
  · intro _ hf
    simp [_update_endpoint, hf]
  · intro fenv r h0 h404
    simp [_async_fetch_with_retry, fetchStep, h0, h404]

/-- Witness for the C2 amended theorem: concrete 404s on a plain endpoint,
on an installer endpoint, and at the transport level. -/
theorem endpoint_404_behavior_witness :
    ((_update_endpoint env404 initState .production_json false).err? = none ∧
      (_update_endpoint env404 initState .production_json false).state.cache
        .production_json = none) ∧
    (_update_endpoint env404 initState .devstatus true).err? =
      some .attributeError ∧
    (_async_fetch_with_retry fenv404).1 = .value none :=
  ⟨(endpoint_404_behavior env404 initState .production_json).1 (Or.inl rfl) rfl,
    (endpoint_404_behavior env404 initState .devstatus).2.1 (Or.inl rfl) rfl,
    (endpoint_404_behavior env404 initState .devstatus).2.2 fenv404
      ⟨404, .null⟩ rfl rfl⟩

theorem fetch_run1 (env : FEnv) (res : FetchResult) (ev : List FEvent)
    (h : fetchStep env 0 = (some res, ev)) :
    _async_fetch_with_retry env = (res, ev) := by
  unfold _async_fetch_with_retry
  rw [h]

theorem fetch_run2 (env : FEnv) (ev0 : List FEvent) (res : FetchResult)
    (ev1 : List FEvent) (h0 : fetchStep env 0 = (none, ev0))
    (h1 : fetchStep env 1 = (some res, ev1)) :
    _async_fetch_with_retry env = (res, ev0 ++ ev1) := by
  unfold _async_fetch_with_retry
  rw [h0, h1]

theorem fetch_run3 (env : FEnv) (ev0 ev1 : List FEvent) (res : FetchResult)
    (ev2 : List FEvent) (h0 : fetchStep env 0 = (none, ev0))
    (h1 : fetchStep env 1 = (none, ev1))
    (h2 : fetchStep env 2 = (some res, ev2)) :
    _async_fetch_with_retry env = (res, ev0 ++ ev1 ++ ev2) := by
  unfold _async_fetch_with_retry
  rw [h0, h1, h2]

theorem fetchStep_getCount (env : FEnv) (i : Nat) :
    ((fetchStep env i).2.countP FEvent.isGet) = 1 := by
  unfold fetchStep
  cases env.net i
  all_goals repeat' split
  all_goals rfl

theorem fetchStep_hasGet (env : FEnv) (i : Nat) :
    FEvent.get i ∈ (fetchStep env i).2 := by
  unfold fetchStep
  cases env.net i
  all_goals repeat' split
  all_goals simp

theorem fetchStep_two_some (env : FEnv) :
    ∃ res ev, fetchStep env 2 = (some res, ev) := by
  unfold fetchStep
  cases env.net 2 with
  | transportError => exact ⟨_, _, rfl⟩
  | response r =>
    repeat' split
    all_goals first
      | exact ⟨_, _, rfl⟩
      | simp_all

theorem fetchStep_raised_of (env : FEnv) (i : Nat) (ev : List FEvent)
    (h : fetchStep env i = (some .raisedTransport, ev)) :
    env.net i = .transportError := by
  revert h
  unfold fetchStep
  cases hn : env.net i with
  | transportError =>
    intro _
    rfl
  | response r =>
    repeat' split
    all_goals intro h
    all_goals simp_all

theorem fetchStep_not_raised_early (env : FEnv) (i : Nat) (ev : List FEvent)
    (hi : (i == 2) = false) (h : fetchStep env i = (some .raisedTransport, ev)) :
    False := by
  revert h
  unfold fetchStep
  cases hn : env.net i with
  | transportError =>
    rw [hi]
    intro h
    simp at h
  | response r =>
    repeat' split
    all_goals intro h
    all_goals simp_all

/-- C3: `_async_fetch_with_retry` attempts at most 3 GETs; a transport
failure on an early attempt is retried immediately and the error is
propagated only when the third attempt fails; a 401 before the final
attempt first triggers a cookie refresh, then — only if that fails — a
full re-authentication, and then a retry; and after two such
reauthentication rounds a final 401 response is returned as-is. -/
theorem fetch_with_retry_schedule (env : FEnv) :
    ((_async_fetch_with_retry env).2.countP FEvent.isGet ≤ 3) ∧
    (env.net 0 = .transportError →
      FEvent.get 1 ∈ (_async_fetch_with_retry env).2) ∧
    (env.net 0 = .transportError → env.net 1 = .transportError →
      FEvent.get 2 ∈ (_async_fetch_with_retry env).2) ∧
    ((_async_fetch_with_retry env).1 = .raisedTransport →
      env.net 2 = .transportError) ∧
    (∀ r, env.net 0 = .response r → r.status_code = 401 →
      (∃ rest, (_async_fetch_with_retry env).2 =
        [FEvent.get 0, FEvent.cookieRefresh (env.cookieOk 0)] ++
          (if env.cookieOk 0 then [] else [FEvent.fullReauth]) ++ rest) ∧
      FEvent.get 1 ∈ (_async_fetch_with_retry env).2) ∧
    (∀ r0 r1 r2, env.net 0 = .response r0 → r0.status_code = 401 →
      env.net 1 = .response r1 → r1.status_code = 401 →
      env.net 2 = .response r2 → r2.status_code = 401 →
      (_async_fetch_with_retry env).1 = .value (some r2)) := by
  obtain ⟨res2, ev2, hs2⟩ := fetchStep_two_some env
  have c2 := fetchStep_getCount env 2
  rw [hs2] at c2
  simp only [] at c2
  refine ⟨?_, ?_, ?_, ?_, ?_, ?_⟩
  · rcases h0 : fetchStep env 0 with ⟨o0, e0⟩
    have c0 := fetchStep_getCount env 0
    rw [h0] at c0
    simp only [] at c0
    rcases o0 with _ | r0
    · rcases h1 : fetchStep env 1 with ⟨o1, e1⟩
      have c1 := fetchStep_getCount env 1
      rw [h1] at c1
      simp only [] at c1
      rcases o1 with _ | r1
      · rw [fetch_run3 env e0 e1 res2 ev2 h0 h1 hs2]
        simp [List.countP_append, c0, c1, c2]
      · rw [fetch_run2 env e0 r1 e1 h0 h1]
        simp [List.countP_append, c0, c1]
    · rw [fetch_run1 env r0 e0 h0]
      simp [c0]
  · intro ht0
    have hs0 : fetchStep env 0 = (none, [.get 0]) := by
      simp [fetchStep, ht0]
    rcases h1 : fetchStep env 1 with ⟨o1, e1⟩
    have hg : FEvent.get 1 ∈ e1 := by
      have := fetchStep_hasGet env 1
      rw [h1] at this
      exact this
    rcases o1 with _ | r1
    · rw [fetch_run3 env _ _ res2 ev2 hs0 h1 hs2]
      simp [hg]
    · rw [fetch_run2 env _ r1 e1 hs0 h1]
      simp [hg]
  · intro ht0 ht1
    have hs0 : fetchStep env 0 = (none, [.get 0]) := by
      simp [fetchStep, ht0]
    have hs1 : fetchStep env 1 = (none, [.get 1]) := by
      simp [fetchStep, ht1]
    have hg : FEvent.get 2 ∈ ev2 := by
      have := fetchStep_hasGet env 2
      rw [hs2] at this
      exact this
    rw [fetch_run3 env _ _ res2 ev2 hs0 hs1 hs2]
    simp [hg]
  · intro hres
    rcases h0 : fetchStep env 0 with ⟨o0, e0⟩
    rcases o0 with _ | r0
    · rcases h1 : fetchStep env 1 with ⟨o1, e1⟩
      rcases o1 with _ | r1
      · rw [fetch_run3 env _ _ res2 ev2 h0 h1 hs2] at hres
        simp at hres
        subst hres
        exact fetchStep_raised_of env 2 ev2 hs2
      · rw [fetch_run2 env _ r1 e1 h0 h1] at hres
        simp at hres
        subst hres
        exact (fetchStep_not_raised_early env 1 e1 rfl h1).elim
    · rw [fetch_run1 env r0 e0 h0] at hres
      simp at hres
      subst hres
      exact (fetchStep_not_raised_early env 0 e0 rfl h0).elim
  · intro r h0 h401
    have hs0 : fetchStep env 0 = (none,
        [.get 0, .cookieRefresh (env.cookieOk 0)] ++
          (if env.cookieOk 0 then [] else [.fullReauth])) := by
      simp [fetchStep, h0, h401]
    rcases h1 : fetchStep env 1 with ⟨o1, e1⟩
    have hg : FEvent.get 1 ∈ e1 := by
      have := fetchStep_hasGet env 1
      rw [h1] at this
      exact this
    rcases o1 with _ | r1
    · rw [fetch_run3 env _ _ res2 ev2 hs0 h1 hs2]
      refine ⟨⟨e1 ++ ev2, ?_⟩, ?_⟩
      · simp [List.append_assoc]
      · simp [hg]
    · rw [fetch_run2 env _ r1 e1 hs0 h1]
      refine ⟨⟨e1, ?_⟩, ?_⟩
      · simp [List.append_assoc]
      · simp [hg]
  · intro r0 r1 r2 h0 h401a h1 h401b h2 h401c
    have hs0 : fetchStep env 0 = (none,
        [.get 0, .cookieRefresh (env.cookieOk 0)] ++
          (if env.cookieOk 0 then [] else [.fullReauth])) := by
      simp [fetchStep, h0, h401a]
    have hs1 : fetchStep env 1 = (none,
        [.get 1, .cookieRefresh (env.cookieOk 1)] ++
          (if env.cookieOk 1 then [] else [.fullReauth])) := by
      simp [fetchStep, h1, h401b]
    have hs2' : fetchStep env 2 = (some (.value (some r2)), [.get 2]) := by
      simp [fetchStep, h2, h401c]
    rw [fetch_run3 env _ _ _ _ hs0 hs1 hs2']

/-- Witness for the C3 theorem in the environment where every attempt
answers 401 and the cookie refresh always fails: at most 3 attempts, the
first 401 triggers a cookie refresh followed by a full re-authentication
and a retry, and the final 401 response is returned as-is. -/
theorem fetch_with_retry_schedule_witness :
    ((_async_fetch_with_retry fenv401).2.countP FEvent.isGet ≤ 3) ∧
    ((∃ rest, (_async_fetch_with_retry fenv401).2 =
        [FEvent.get 0, FEvent.cookieRefresh (fenv401.cookieOk 0)] ++
          (if fenv401.cookieOk 0 then [] else [FEvent.fullReauth]) ++ rest) ∧
      FEvent.get 1 ∈ (_async_fetch_with_retry fenv401).2) ∧
    (_async_fetch_with_retry fenv401).1 =
      .value (some ⟨401, .null⟩) :=
  ⟨(fetch_with_retry_schedule fenv401).1,
    (fetch_with_retry_schedule fenv401).2.2.2.2.1 ⟨401, .null⟩ rfl rfl,
    (fetch_with_retry_schedule fenv401).2.2.2.2.2 ⟨401, .null⟩ ⟨401, .null⟩
      ⟨401, .null⟩ rfl rfl rfl rfl rfl rfl⟩

/-- C4: when inverter data is requested and every endpoint fetch yields a
response, a 401 response from the inverter-detail endpoint makes `getData`
raise (`raise_for_status`, an authentication failure for the caller),
while 401 responses on the other endpoints never abort the `_update`
cycle. -/
theorem inverters_401_raises_others_dont (cfg : EnvoyConfig) (env : Env)
    (st : EnvoyState) :
    (∀ (r : Response) (e : Int) (et : String),
      (∀ ep, ∃ resp, env.fetch ep = .value (some resp)) →
      env.fetch .inverters = .value (some r) → r.status_code = 401 →
      st._token ≠ "" → env.decodeExp st._token = some e →
      env.now < e - cfg.token_refresh_buffer_seconds →
      st.endpoint_type = some et → cfg.get_inverters = true →
      (getData cfg env st true).err? = some .httpStatusError) ∧
    ((∀ ep, ∃ resp, env.fetch ep = .value (some resp)) →
      (_update env st).err? = none) := by
  constructor
  · intro r e et hresp hinv h401 htok hdec hnow hty hgi
    have hexp : _is_enphase_token_expired cfg env st._token = .ok false := by
      simp only [_is_enphase_token_expired, hdec]
      have : decide (e - cfg.token_refresh_buffer_seconds ≤ env.now) = false :=
        decide_eq_false (by omega)
      rw [this]
    have hupd := update_err_none_of_resp env st hresp
    simp [getData, htok, hexp, hty, hupd, hgi, hinv, h401]
  · intro hresp
    exact update_err_none_of_resp env st hresp

/-- Witness for the C4 theorem: every endpoint including the inverter
endpoint answers 401 on a "P" session with a valid token — `getData`
raises the status error, while `_update` alone completes without error. -/
theorem inverters_401_raises_others_dont_witness :
    (getData cfgInv env401 { stP with _token := "tok" } true).err? =
      some .httpStatusError ∧
    (_update env401 { stP with _token := "tok" }).err? = none :=
  ⟨(inverters_401_raises_others_dont cfgInv env401
      { stP with _token := "tok" }).1 ⟨401, .null⟩ 1000000 ENVOY_MODEL_C
      (fun ep => ⟨⟨401, .null⟩, rfl⟩) rfl rfl (by decide) rfl (by decide) rfl rfl,
    (inverters_401_raises_others_dont cfgInv env401
      { stP with _token := "tok" }).2 (fun ep => ⟨⟨401, .null⟩, rfl⟩)⟩

theorem except_bind_error {α β : Type} (e : PErr) (f : α → Except PErr β) :
    (Except.error e >>= f) = Except.error e := rfl

theorem except_bind_ok {α β : Type} (a : α) (f : α → Except PErr β) :
    (Except.ok a >>= f) = f a := rfl

theorem getData_reauthed (cfg : EnvoyConfig) (env : Env) (st : EnvoyState)
    (gi : Bool) :
    (getData cfg env st gi).reauthed =
      (if st._token = "" then true
       else
         match _is_enphase_token_expired cfg env st._token with
         | .error _ => false
         | .ok b => b) := by
  simp only [getData]
  by_cases hemp : st._token = ""
  · rw [if_pos hemp, if_pos hemp]
    cases hg : _getEnphaseToken env st
    all_goals repeat' split
    all_goals simp_all
  · rw [if_neg hemp, if_neg hemp]
    cases he : _is_enphase_token_expired cfg env st._token with
    | error e =>
      repeat' split
      all_goals simp_all
    | ok b =>
      cases b
      all_goals repeat' split
      all_goals simp_all

/-- C8 counterexample: at the exact boundary instant — the decoded expiry
minus the refresh buffer equals the current time, so the expiry is *not*
earlier than the current time — `getData` still performs a full
re-authentication instead of keeping the cached token. -/
theorem token_reauth_at_boundary :
    stTokP._token ≠ "" ∧
    envBoundary.decodeExp stTokP._token = some 1000 ∧
    cfgNoInv.token_refresh_buffer_seconds = 0 ∧
    envBoundary.now = 1000 ∧
    ¬ ((1000:Int) - 0 < 1000) ∧
    (getData cfgNoInv envBoundary stTokP false).reauthed = true := by
  refine ⟨by decide, by decide, rfl, rfl, by decide, ?_⟩
  rw [getData_reauthed]
  decide

/-- C8 amended: `getData` performs a full re-authentication before the
data fetch exactly when the cached token is empty or its decoded expiry
minus the refresh buffer is **at or before** the current time (the code
treats the exact-boundary instant as expired too); otherwise the cached
token is kept. -/
theorem token_reauth_condition (cfg : EnvoyConfig) (env : Env)
    (st : EnvoyState) (gi : Bool) (e : Int)
    (hdec : env.decodeExp st._token = some e) :
    ((getData cfg env st gi).reauthed = true ↔
      (st._token = "" ∨ e - cfg.token_refresh_buffer_seconds ≤ env.now)) := by
  rw [getData_reauthed]
  by_cases hemp : st._token = ""
  · simp [hemp]
  · have hexp : _is_enphase_token_expired cfg env st._token =
        .ok (decide (e - cfg.token_refresh_buffer_seconds ≤ env.now)) := by
      simp [_is_enphase_token_expired, hdec]
    simp [hemp, hexp]

/-- Witness for the C8 amended theorem: with the token expiring well in
the future, no re-authentication happens. -/
theorem token_reauth_condition_witness :
    ((getData cfgNoInv envFresh stTokP false).reauthed = true ↔
      (stTokP._token = "" ∨
        (1000:Int) - cfgNoInv.token_refresh_buffer_seconds ≤ envFresh.now)) :=
  token_reauth_condition cfgNoInv envFresh stTokP false 1000 rfl

/-- C9: on a session classified production-only ("P") whose cached
api/v1/production body is `{"wattsNow": 300}`, the power extractor returns
300 and the consumption extractor returns the "not available" sentinel
message instead of raising. -/
theorem production_only_extractors (st : EnvoyState) (sc : Nat)
    (hT : st.endpoint_type = some ENVOY_MODEL_C)
    (hv1 : st.cache .production_v1 = some ⟨sc, .obj [("wattsNow", .num 300)]⟩) :
    production st = .ok (.int 300) ∧
    consumption st = .ok (.str message_consumption_not_available) := by
  have hPP : strIn ENVOY_MODEL_C ENVOY_MODEL_C = true := by decide
  have hne : (ENVOY_MODEL_C = ENVOY_MODEL_S) = False := by
    simp [ENVOY_MODEL_C, ENVOY_MODEL_S]
  constructor
  · simp [production, hT, hne, EnvoyState.endpoint_production_v1_results, hv1,
      cachedJson, jget, pyInt, except_bind_ok]
  · simp [consumption, hT, pyInStrOpt, hPP, except_bind_ok, pure, Except.pure]

/-- Witness for the C9 theorem at the concrete session `stC9`. -/
theorem production_only_extractors_witness :
    production stC9 = .ok (.int 300) ∧
    consumption stC9 = .ok (.str message_consumption_not_available) :=
  production_only_extractors stC9 200 rfl rfl

/-- C10: calling an extractor before model detection has set the
capability class (`endpoint_type` is `None`) raises: every
consumption-family extractor hits the substring test `None in "P"` and
raises `TypeError`, and the production extractor falls through both class
branches and raises `UnboundLocalError` — none of them returns the
"unavailable" sentinel. -/
theorem extractors_before_detection (st : EnvoyState) (phase : String)
    (hT : st.endpoint_type = none) :
    consumption st = .error .typeError ∧
    consumption_phase st phase = .error .typeError ∧
    daily_consumption st = .error .typeError ∧
    daily_consumption_phase st phase = .error .typeError ∧
    seven_days_consumption st = .error .typeError ∧
    lifetime_consumption st = .error .typeError ∧
    lifetime_consumption_phase st phase = .error .typeError ∧
    production st = .error .unboundLocalError := by
  refine ⟨?_, ?_, ?_, ?_, ?_, ?_, ?_, ?_⟩
  all_goals
    simp [consumption, consumption_phase, daily_consumption,
      daily_consumption_phase, seven_days_consumption, lifetime_consumption,
      lifetime_consumption_phase, production, hT, pyInStrOpt,
      except_bind_error]

/-- Witness for the C10 theorem at a fresh session. -/
theorem extractors_before_detection_witness :
    consumption initState = .error .typeError ∧
    consumption_phase initState "consumption_l2" = .error .typeError ∧
    daily_consumption initState = .error .typeError ∧
    daily_consumption_phase initState "consumption_l2" = .error .typeError ∧
    seven_days_consumption initState = .error .typeError ∧
    lifetime_consumption initState = .error .typeError ∧
    lifetime_consumption_phase initState "consumption_l2" =
      .error .typeError ∧
    production initState = .error .unboundLocalError :=
  extractors_before_detection initState "consumption_l2" rfl

/-- C7 code-bug evidence: `daily_consumption_phase` defines the phase map
`l1 → 0, l2 → 1, l3 → 2` but indexes `lines[0]` for every phase: on a
"PC" session whose consumption lines carry `whToday` values 11, 22, 33,
the l2 and l3 extractors both return the l1 value 11 instead of 22 and
33. -/
theorem daily_consumption_phase_ignores_phase :
    daily_consumption_phase stPhases "daily_consumption_l2" = .ok (.int 11) ∧
    daily_consumption_phase stPhases "daily_consumption_l3" = .ok (.int 11) := by
  constructor <;> rfl
